import Mathlib

/-!
# Verification of the RAPTOR routing core (`src/source/routing/raptor.cpp`)

This file gives a shallow embedding of the RAPTOR journey-planner core and
proves/refutes the frozen claims about it.  All definitions are translated
from `src/source/routing/raptor.cpp`; parts of the repository that are only
declared there (the `DateTime` class, `best_dest`, `init::getDepartures`,
`earliest_trip`/`tardiest_trip`, the `type_retour` constructors) are modelled
from the specification, with a doc comment saying so.
-/

set_option maxRecDepth 10000

namespace Navitia

/-! ## DateTime -/

/-- Modelled from the spec: `DateTime` (declared outside `src/`) is "an ordered
scalar carrying (date, seconds-of-day)" supporting `+`, `-`, comparison and the
sentinels `MIN` and `INF`; `date()` yields the day, `update(sec)` rolls the
scalar so its seconds equals `sec` advancing the date if needed, and
`updatereverse(sec)` is the symmetric rollback.  We represent the scalar as an
absolute number of seconds. -/
structure DateTime where
  val : Nat
deriving DecidableEq, Repr

def secondsInDay : Nat := 86400

def DateTime.min : DateTime := ⟨0⟩

/-- Modelled from the spec: `DateTime::inf`, a sentinel comparing above every
datetime that actually occurs in a timetable. -/
def DateTime.inf : DateTime := ⟨secondsInDay * 1000000⟩

def DateTime.date (d : DateTime) : Nat := d.val / secondsInDay

def DateTime.hour (d : DateTime) : Nat := d.val % secondsInDay

def DateTime.ofDateHour (date h : Nat) : DateTime := ⟨date * secondsInDay + h⟩

/-- Modelled from the spec: `update(sec)` rolls the scalar so its seconds-of-day
equals `sec`, advancing the date if needed. -/
def DateTime.update (d : DateTime) (sec : Nat) : DateTime :=
  if d.hour ≤ sec then ⟨d.val - d.hour + sec⟩ else ⟨d.val - d.hour + secondsInDay + sec⟩

/-- Modelled from the spec: `updatereverse(sec)` is the symmetric rollback of
`update`. -/
def DateTime.updatereverse (d : DateTime) (sec : Nat) : DateTime :=
  if sec ≤ d.hour then ⟨d.val - d.hour + sec⟩ else ⟨d.val - d.hour - secondsInDay + sec⟩

instance : Inhabited DateTime := ⟨DateTime.inf⟩

/-! ## Timetable data (`TransitData` view, read-only) -/

def invalid_idx : Nat := 4294967295

/-- `uint32_t` maximum, the "no local traffic zone" sentinel. -/
def lzMax : Nat := 4294967295

def intMax : Int := 2147483647

structure StopTime where
  idx : Nat
  arrival_time : Nat
  departure_time : Nat
  vehicle_journey_idx : Nat
  route_point_idx : Nat
  local_traffic_zone : Nat
  pick_up : Bool
  drop_off : Bool
deriving DecidableEq, Repr

def StopTime.drop_off_allowed (st : StopTime) : Bool := st.drop_off

def StopTime.pick_up_allowed (st : StopTime) : Bool := st.pick_up

instance : Inhabited StopTime := ⟨⟨0, 0, 0, 0, 0, lzMax, false, false⟩⟩

structure RoutePoint where
  idx : Nat
  route_idx : Nat
  order : Nat
  stop_point_idx : Nat
deriving DecidableEq, Repr

instance : Inhabited RoutePoint := ⟨⟨0, 0, 0, 0⟩⟩

structure StopPoint where
  route_point_list : List Nat
deriving DecidableEq, Repr

instance : Inhabited StopPoint := ⟨⟨[]⟩⟩

structure Route where
  idx : Nat
  line_idx : Nat
  mode_type_idx : Nat
  external_code : String
  vehicle_journey_list : List Nat
  route_point_list : List Nat
deriving DecidableEq, Repr

instance : Inhabited Route := ⟨⟨0, 0, 0, "", [], []⟩⟩

structure VehicleJourney where
  validity_pattern_idx : Nat
  stop_time_list : List Nat
deriving DecidableEq, Repr

instance : Inhabited VehicleJourney := ⟨⟨0, []⟩⟩

/-- A validity pattern; `check2 date` is true iff the pattern fires within
plus or minus one day of `date` (its implementation lives outside `src/`, so it
is kept as an opaque boolean-valued field of the data). -/
structure ValidityPattern where
  check2 : Nat → Bool

instance : Inhabited ValidityPattern := ⟨⟨fun _ => false⟩⟩

structure Line where
  external_code : String
deriving DecidableEq, Repr

instance : Inhabited Line := ⟨⟨""⟩⟩

structure ModeType where
  external_code : String
deriving DecidableEq, Repr

instance : Inhabited ModeType := ⟨⟨""⟩⟩

inductive ConnectionKind where
  | extension
  | guarantee
deriving DecidableEq, Repr

/-- An entry of `footpath_rp_forward`/`footpath_rp_backward`; the backward
variant's field is called `departure_route_point_idx` in the source, we use one
name for both. -/
structure RoutePointConnection where
  destination_route_point_idx : Nat
  length : Nat
  connection_kind : ConnectionKind
deriving DecidableEq, Repr

structure FootPath where
  destination_stop_point_idx : Nat
  duration : Nat
deriving DecidableEq, Repr

instance : Inhabited FootPath := ⟨⟨0, 0⟩⟩

structure Data where
  stop_points : List StopPoint
  route_points : List RoutePoint
  routes : List Route
  vehicle_journeys : List VehicleJourney
  validity_patterns : List ValidityPattern
  lines : List Line
  mode_types : List ModeType
  stop_times : List StopTime
  foot_path : List FootPath
  footpath_index : List (Nat × Nat)
  footpath_rp_forward : List (Nat × RoutePointConnection)
  footpath_rp_backward : List (Nat × RoutePointConnection)

/-! ## Labels (`type_retour`) -/

inductive RType where
  | uninitialized
  | depart
  | vj
  | connection
  | connection_extension
  | connection_guarantee
deriving DecidableEq, Repr

structure type_retour where
  type : RType
  arrival : DateTime
  departure : DateTime
  stop_time_idx : Nat
  rpid_embarquement : Nat
deriving DecidableEq, Repr

/-- Forward sentinel label (`data.dataRaptor.retour_constant` entries). -/
def retour_sentinel : type_retour :=
  ⟨RType.uninitialized, DateTime.inf, DateTime.inf, invalid_idx, invalid_idx⟩

/-- Reverse sentinel label (`data.dataRaptor.retour_constant_reverse` entries). -/
def retour_sentinel_reverse : type_retour :=
  ⟨RType.uninitialized, DateTime.min, DateTime.min, invalid_idx, invalid_idx⟩

instance : Inhabited type_retour := ⟨retour_sentinel⟩

/-- Modelled from the spec: `dataRaptor.retour_constant`, the vector of
sentinel labels for the active direction, sized like `route_points`. -/
def retour_constant (d : Data) : List type_retour :=
  List.replicate d.route_points.length retour_sentinel

/-- Modelled from the spec: `dataRaptor.retour_constant_reverse`. -/
def retour_constant_reverse (d : Data) : List type_retour :=
  List.replicate d.route_points.length retour_sentinel_reverse

/-- Modelled from the spec: the `type_retour(st, dt, embarquement, clockwise)`
constructor (declared in `raptor.h`, outside `src/`): a `VehicleJourney` label
whose instant in the active direction is the given datetime, recording the
stop-time index and the boarding route point. -/
def type_retour.ofStopTime (st : StopTime) (dt : DateTime) (emb : Nat) (clockwise : Bool) :
    type_retour :=
  if clockwise then
    ⟨RType.vj, dt, DateTime.update dt st.departure_time, st.idx, emb⟩
  else
    ⟨RType.vj, DateTime.updatereverse dt st.arrival_time, dt, st.idx, emb⟩

/-- Modelled from the spec: the `type_retour(DateTime, DateTime, rp[, kind])`
constructors used for walking/connection labels. -/
def type_retour.mkConnection (a b : DateTime) (rp : Nat) (k : RType) : type_retour :=
  ⟨k, a, b, invalid_idx, rp⟩

/-- Modelled from the spec: the `type_retour(DateTime, DateTime)` constructor
used to seed round 0 — "the driver seeds round 0 with Departure labels". -/
def type_retour.mkSeed (a b : DateTime) : type_retour :=
  ⟨RType.depart, a, b, invalid_idx, invalid_idx⟩

/-! ## The best-destination tracker (`b_dest`)

`best_dest` lives outside `src/`; it is modelled from the spec: it "records the
current best label among destination rp's (for global pruning) and the winning
rp; supports `add_destination(rp, egress_walk_seconds)`, `offer(rp, label,
round)` returning whether the offer was dominated by the destination bound",
and, per §4.3, `store_better` marks the route point "if the destination tracker
does NOT absorb the label (i.e., this rp is not a useful improvement for the
destination alone)". -/

structure best_dest where
  best_now : type_retour
  best_now_rpid : Nat
  dests : List (Nat × ℚ)
deriving DecidableEq, Repr

instance : Inhabited best_dest := ⟨⟨retour_sentinel, invalid_idx, []⟩⟩

/-- Modelled from the spec: `b_dest.reinit(size, borne, clockwise)` — forget the
registered destinations and reset `best_now` to an uninitialized label at the
bound. -/
def best_dest.reinit (_n : Nat) (borne : DateTime) (_clockwise : Bool) : best_dest :=
  ⟨⟨RType.uninitialized, borne, borne, invalid_idx, invalid_idx⟩, invalid_idx, []⟩

/-- Modelled from the spec: `b_dest.ajouter_destination(rp, egress_walk_seconds)`. -/
def best_dest.ajouter_destination (b : best_dest) (rp : Nat) (w : ℚ) : best_dest :=
  { b with dests := b.dests ++ [(rp, w)] }

def best_dest.egress (b : best_dest) (rp : Nat) : Option ℚ :=
  (b.dests.find? (fun p => p.1 == rp)).map Prod.snd

/-- Modelled from the spec: the forward `b_dest.ajouter_best(rp, label, round)`.
It absorbs the offer (returning `true`) iff `rp` is a registered destination and
the label plus its egress walk improves the current best-at-destination bound;
the stored bound's arrival is the improved value (rounded down to whole
seconds). -/
def best_dest.ajouter_best (b : best_dest) (rp : Nat) (r : type_retour) (_count : Nat) :
    best_dest × Bool :=
  match b.egress rp with
  | none => (b, false)
  | some w =>
    let cand : ℚ := (r.arrival.val : ℚ) + w
    if cand < (b.best_now.arrival.val : ℚ) then
      ({ b with best_now := { r with arrival := ⟨cand.floor.toNat⟩ }, best_now_rpid := rp }, true)
    else (b, false)

/-- Modelled from the spec: the reverse `b_dest.ajouter_best_reverse`, dual of
`ajouter_best` on departures. -/
def best_dest.ajouter_best_reverse (b : best_dest) (rp : Nat) (r : type_retour) (_count : Nat) :
    best_dest × Bool :=
  match b.egress rp with
  | none => (b, false)
  | some w =>
    let cand : ℚ := (r.departure.val : ℚ) - w
    if (b.best_now.departure.val : ℚ) < cand then
      ({ b with best_now := { r with departure := ⟨cand.floor.toNat⟩ }, best_now_rpid := rp }, true)
    else (b, false)

/-- Dispatch used by `foot_path`, which calls `ajouter_best` with the visitor's
`clockwise` flag. -/
def best_dest.ajouter_best_cl (b : best_dest) (rp : Nat) (r : type_retour) (count : Nat)
    (clockwise : Bool) : best_dest × Bool :=
  if clockwise then b.ajouter_best rp r count else b.ajouter_best_reverse rp r count

/-! ## Engine state -/

/-- The mutable per-query state owned by the `RAPTOR` engine object:
`retour` is the per-round label tensor `τ[k][rp]`, `best` the flat best array,
`Q` the per-route queue, plus the marking bitsets, the destination tracker,
the route validity bitset and the round counter. -/
structure RState where
  retour : List (List type_retour)
  best : List type_retour
  Q : List Int
  marked_rp : List Bool
  marked_sp : List Bool
  b_dest : best_dest
  routes_valides : List Bool
  count : Nat
deriving DecidableEq, Repr

def RState.getRetour (s : RState) (k rp : Nat) : type_retour :=
  (s.retour.getD k []).getD rp retour_sentinel

def RState.setRetour (s : RState) (k rp : Nat) (r : type_retour) : RState :=
  { s with retour := s.retour.set k ((s.retour.getD k []).set rp r) }

def RState.getBest (s : RState) (rp : Nat) : type_retour :=
  s.best.getD rp retour_sentinel

def RState.setBest (s : RState) (rp : Nat) (r : type_retour) : RState :=
  { s with best := s.best.set rp r }

/-! ## `store_better` (raptor.cpp lines 488–509 and 587–606) -/

/-- `raptor_visitor::store_better` (forward).  Mirrors raptor.cpp:488-509: the
working datetime is rolled to the stop-time's arrival; on strict improvement of
the bound's arrival with drop-off allowed the label is installed in
`retour[count]` and `best` and, unless the destination tracker absorbs it, the
route point and its stop point are marked and `false` is returned; on exact
equality with the bound, the label is installed only when the previous round's
label is uninitialized and the tracker accepts the offer.  Returns the updated
state, the updated working datetime (passed by reference in C++), and the
boolean result. -/
def raptor_visitor.store_better (d : Data) (s : RState) (rpid : Nat) (working : DateTime)
    (bound : type_retour) (st : StopTime) (emb : Nat) : RState × DateTime × Bool :=
  let w := working.update st.arrival_time
  if w.val < bound.arrival.val ∧ st.drop_off_allowed = true then
    let r := type_retour.ofStopTime st w emb true
    let s1 := (s.setRetour s.count rpid r).setBest rpid r
    let ab := s1.b_dest.ajouter_best rpid r s1.count
    let s2 := { s1 with b_dest := ab.1 }
    if ab.2 = true then (s2, w, true)
    else
      ({ s2 with
          marked_rp := s2.marked_rp.set rpid true,
          marked_sp := s2.marked_sp.set (d.route_points.getD rpid default).stop_point_idx true },
        w, false)
  else if w = bound.arrival ∧ (s.getRetour (s.count - 1) rpid).type = RType.uninitialized then
    let r := type_retour.ofStopTime st w emb true
    let ab := s.b_dest.ajouter_best rpid r s.count
    if ab.2 = true then
      ((({ s with b_dest := ab.1 }).setRetour s.count rpid r).setBest rpid r, w, true)
    else ({ s with b_dest := ab.1 }, w, true)
  else (s, w, true)

/-- `raptor_reverse_visitor::store_better` (raptor.cpp:587-606); dual of the
forward version on departures with pick-up, except that in the equality branch
only `retour[count]` is written (`best` is not updated there in the source). -/
def raptor_reverse_visitor.store_better (d : Data) (s : RState) (rpid : Nat) (working : DateTime)
    (bound : type_retour) (st : StopTime) (emb : Nat) : RState × DateTime × Bool :=
  let w := working.updatereverse st.departure_time
  if bound.departure.val < w.val ∧ st.pick_up_allowed = true then
    let r := type_retour.ofStopTime st w emb false
    let s1 := (s.setRetour s.count rpid r).setBest rpid r
    let ab := s1.b_dest.ajouter_best_reverse rpid r s1.count
    let s2 := { s1 with b_dest := ab.1 }
    if ab.2 = true then (s2, w, true)
    else
      ({ s2 with
          marked_rp := s2.marked_rp.set rpid true,
          marked_sp := s2.marked_sp.set (d.route_points.getD rpid default).stop_point_idx true },
        w, false)
  else if w = bound.departure ∧ (s.getRetour (s.count - 1) rpid).type = RType.uninitialized then
    let r := type_retour.ofStopTime st w emb false
    let ab := s.b_dest.ajouter_best_reverse rpid r s.count
    if ab.2 = true then (({ s with b_dest := ab.1 }).setRetour s.count rpid r, w, true)
    else ({ s with b_dest := ab.1 }, w, true)
  else (s, w, true)

/-! ## Direction visitors

The walking/round-loop visitors (`walking_visitor`, `walking_backwards_visitor`,
`raptor_visitor`, `raptor_reverse_visitor`) are embedded as functions over the
`clockwise` flag `cw`. -/

/-- `worst()`: `DateTime::inf` forward, `DateTime::min` reverse. -/
def vWorst (cw : Bool) : DateTime := if cw then DateTime.inf else DateTime.min

/-- `comp(a, b)` on datetimes: `a < b` forward, `a > b` reverse. -/
def vCompDT (cw : Bool) (a b : DateTime) : Bool :=
  if cw then decide (a.val < b.val) else decide (b.val < a.val)

/-- `comp(a, b)` on queue orders (`int`). -/
def vCompInt (cw : Bool) (a b : Int) : Bool := if cw then decide (a < b) else decide (b < a)

/-- `combine(a, Δ)`: `a + Δ` forward, `a - Δ` reverse. -/
def vCombine (cw : Bool) (a : DateTime) (n : Nat) : DateTime :=
  if cw then ⟨a.val + n⟩ else ⟨a.val - n⟩

/-- The label field `*v.instant`: `arrival` forward, `departure` reverse. -/
def vInstant (cw : Bool) (r : type_retour) : DateTime := if cw then r.arrival else r.departure

/-! ## Footpath relaxer (`RAPTOR::foot_path`, raptor.cpp:109-188) -/

/-- The per-stop-point pivot selection (raptor.cpp:117-124): the member route
point, holding a current-round label of type `vj` or `depart`, whose `arrival`
is best in the active direction; `invalid_idx` when none qualifies. -/
def foot_path_best_rp (d : Data) (s : RState) (cw : Bool) (sp : Nat) : DateTime × Nat :=
  (d.stop_points.getD sp default).route_point_list.foldl
    (fun acc rpidx =>
      let r := s.getRetour s.count rpidx
      if (r.type = RType.vj ∨ r.type = RType.depart) ∧ vCompDT cw r.arrival acc.1 = true then
        (r.arrival, rpidx)
      else acc)
    (vWorst cw, invalid_idx)

/-- One same-stop transfer (raptor.cpp:128-139): install a `Connection` label at
a sibling route point when the 120-second departure strictly improves `best`. -/
def foot_path_step3_one (d : Data) (cw : Bool) (best_rp : Nat) (best_departure : DateTime)
    (s : RState) (rpidx : Nat) : RState :=
  if rpidx ≠ best_rp ∧ vCompDT cw best_departure (vInstant cw (s.getBest rpidx)) = true then
    let nR := type_retour.mkConnection best_departure best_departure best_rp RType.connection
    let s1 := (s.setBest rpidx nR).setRetour s.count rpidx nR
    let rp := d.route_points.getD rpidx default
    let ab := s1.b_dest.ajouter_best_cl rpidx nR s1.count cw
    let s2 := { s1 with b_dest := ab.1 }
    if ab.2 = false ∧ vCompInt cw rp.order (s2.Q.getD rp.route_idx 0) = true then
      { s2 with Q := s2.Q.set rp.route_idx rp.order }
    else s2
  else s

/-- One inter-stop footpath target (raptor.cpp:153-169), threading the
`(prec_duration, next)` cache; note the `comp ∨ =` admission of ties. -/
def foot_path_step4_one (d : Data) (cw : Bool) (best_rp : Nat) (previous : DateTime)
    (duration : Nat) (acc : RState × Int × DateTime) (destination_rp : Nat) :
    RState × Int × DateTime :=
  let s := acc.1
  if best_rp ≠ destination_rp then
    let prec := if (duration : Int) ≠ acc.2.1 then (duration : Int) else acc.2.1
    let next := if (duration : Int) ≠ acc.2.1 then vCombine cw previous duration else acc.2.2
    if vCompDT cw next (vInstant cw (s.getBest destination_rp)) = true ∨
        next = vInstant cw (s.getBest destination_rp) then
      let nR := type_retour.mkConnection next next best_rp RType.connection
      let s1 := (s.setBest destination_rp nR).setRetour s.count destination_rp nR
      let rp := d.route_points.getD destination_rp default
      let ab := s1.b_dest.ajouter_best_cl destination_rp nR s1.count cw
      let s2 := { s1 with b_dest := ab.1 }
      if ab.2 = false ∧ vCompInt cw rp.order (s2.Q.getD rp.route_idx 0) = true then
        ({ s2 with Q := s2.Q.set rp.route_idx rp.order }, prec, next)
      else (s2, prec, next)
    else (s, prec, next)
  else acc

/-- Processing of one marked stop point inside `foot_path` (raptor.cpp:114-173),
with the shared footpath iterator position `pos` and `last` offset. -/
def foot_path_process_sp (d : Data) (cw : Bool) (acc : RState × Int × Int) (sp : Nat) :
    RState × Int × Int :=
  let s := acc.1
  let sel := foot_path_best_rp d s cw sp
  if sel.2 ≠ invalid_idx then
    let best_departure := vCombine cw sel.1 120
    let s3 := (d.stop_points.getD sp default).route_point_list.foldl
      (foot_path_step3_one d cw sel.2 best_departure) s
    let index := d.footpath_index.getD sp (0, 0)
    let previous := vInstant cw (s3.getRetour s3.count sel.2)
    let pos := acc.2.1 + ((index.1 : Int) - acc.2.2)
    let s4 := (List.range index.2).foldl
      (fun st4 j =>
        let e := d.foot_path.getD (pos + (j : Int)).toNat default
        (d.stop_points.getD e.destination_stop_point_idx default).route_point_list.foldl
          (foot_path_step4_one d cw sel.2 previous e.duration) st4)
      (s3, (-1 : Int), vWorst cw)
    (s4.1, pos + (index.2 : Int), (index.1 : Int) + (index.2 : Int))
  else acc

/-- The ascending iteration order of a bitset (`find_first`/`find_next`). -/
def bitsetIndices (l : List Bool) : List Nat :=
  (List.range l.length).filter (fun i => l.getD i false)

/-- `RAPTOR::foot_path` (raptor.cpp:109-176), parameterised by the direction
visitor: iterate the marked stop points in ascending order, installing
same-stop (120 s) and inter-stop walking labels. -/
def RAPTOR.foot_path (d : Data) (cw : Bool) (s : RState) : RState :=
  ((bitsetIndices s.marked_sp).foldl (foot_path_process_sp d cw) (s, 0, 0)).1

/-! ## Route-path connection relaxers (raptor.cpp:21-74) -/

/-- `RAPTOR::route_path_connections_forward` (raptor.cpp:21-45). -/
def RAPTOR.route_path_connections_forward (d : Data) (s : RState) : RState :=
  let step := fun (acc : RState × List Nat) (rp : Nat) =>
    (d.footpath_rp_forward.filter (fun p => p.1 == rp)).foldl
      (fun (acc : RState × List Nat) pr =>
        let s := acc.1
        let rpc := pr.2
        let dt : DateTime := ⟨(s.getRetour s.count rp).arrival.val + rpc.length⟩
        if (s.getRetour s.count rp).type = RType.vj ∧
            dt.val < (s.getBest rpc.destination_route_point_idx).arrival.val then
          let r := type_retour.mkConnection dt dt rp
            (if rpc.connection_kind = ConnectionKind.extension then RType.connection_extension
             else RType.connection_guarantee)
          (((s.setRetour s.count rpc.destination_route_point_idx r).setBest
              rpc.destination_route_point_idx r),
            acc.2 ++ [rpc.destination_route_point_idx])
        else acc)
      acc
  let res := (bitsetIndices s.marked_rp).foldl step (s, [])
  res.2.foldl
    (fun s rp =>
      let s := { s with marked_rp := s.marked_rp.set rp true }
      let route_point := d.route_points.getD rp default
      if (route_point.order : Int) < s.Q.getD route_point.route_idx 0 then
        { s with Q := s.Q.set route_point.route_idx route_point.order }
      else s)
    res.1

/-- `RAPTOR::route_path_connections_backward` (raptor.cpp:50-74); note the
source compares the new datetime against `best[...].arrival` (not `departure`)
also in the backward direction. -/
def RAPTOR.route_path_connections_backward (d : Data) (s : RState) : RState :=
  let step := fun (acc : RState × List Nat) (rp : Nat) =>
    (d.footpath_rp_backward.filter (fun p => p.1 == rp)).foldl
      (fun (acc : RState × List Nat) pr =>
        let s := acc.1
        let rpc := pr.2
        let dt : DateTime := ⟨(s.getRetour s.count rp).arrival.val - rpc.length⟩
        if (s.getRetour s.count rp).type = RType.vj ∧
            (s.getBest rpc.destination_route_point_idx).arrival.val < dt.val then
          let r := type_retour.mkConnection dt dt rp
            (if rpc.connection_kind = ConnectionKind.extension then RType.connection_extension
             else RType.connection_guarantee)
          (((s.setRetour s.count rpc.destination_route_point_idx r).setBest
              rpc.destination_route_point_idx r),
            acc.2 ++ [rpc.destination_route_point_idx])
        else acc)
      acc
  let res := (bitsetIndices s.marked_rp).foldl step (s, [])
  res.2.foldl
    (fun s rp =>
      let s := { s with marked_rp := s.marked_rp.set rp true }
      let route_point := d.route_points.getD rp default
      if s.Q.getD route_point.route_idx 0 < (route_point.order : Int) then
        { s with Q := s.Q.set route_point.route_idx route_point.order }
      else s)
    res.1

/-! ## Trip search -/

/-- Modelled from the spec: `earliest_trip(route, order, date_time, data)`
(declared outside `src/`) "binary-search[es] among `route.vehicle_journeys`
those valid at the label's date with stop-time satisfying the direction's
inequality": the first vehicle journey of the route whose validity pattern
fires at the datetime's date and whose stop-time at `order` departs at or after
the datetime; `-1` when none exists. -/
def earliest_trip (d : Data) (route : Route) (order : Nat) (dt : DateTime) : Int :=
  match route.vehicle_journey_list.find? (fun vjidx =>
      let vjd := d.vehicle_journeys.getD vjidx default
      (d.validity_patterns.getD vjd.validity_pattern_idx default).check2 dt.date &&
        decide (dt.val ≤ (DateTime.ofDateHour dt.date
          (d.stop_times.getD (vjd.stop_time_list.getD order 0) default).departure_time).val)) with
  | some vjidx => (vjidx : Int)
  | none => -1

/-- Modelled from the spec: `tardiest_trip`, the dual of `earliest_trip` — the
last vehicle journey valid at the date whose stop-time at `order` arrives at or
before the datetime. -/
def tardiest_trip (d : Data) (route : Route) (order : Nat) (dt : DateTime) : Int :=
  match route.vehicle_journey_list.reverse.find? (fun vjidx =>
      let vjd := d.vehicle_journeys.getD vjidx default
      (d.validity_patterns.getD vjd.validity_pattern_idx default).check2 dt.date &&
        decide ((DateTime.ofDateHour dt.date
          (d.stop_times.getD (vjd.stop_time_list.getD order 0) default).arrival_time).val ≤ dt.val)) with
  | some vjidx => (vjidx : Int)
  | none => -1

/-! ## Route scan and round loop (`RAPTOR::raptor_loop`, raptor.cpp:640-696) -/

/-- The loop-local scan variables of `raptor_loop`: the boarded trip `t`, the
boarding route point (`embarquement`), the working datetime, the stop-time
cursor (`it_st`, a position in the global `stop_times` vector) and the local
traffic zone `l_zone`. -/
structure ScanState where
  t : Int
  embarquement : Nat
  workingDt : DateTime
  cursor : Nat
  l_zone : Nat
deriving DecidableEq, Repr

/-- `embarquement_init()`: `type::invalid_idx` forward, `int` max reverse. -/
def vEmbInit (cw : Bool) : Nat := if cw then invalid_idx else 2147483647

/-- `working_datetime_init()`: `DateTime::inf` forward, `DateTime::min` reverse. -/
def vWdInit (cw : Bool) : DateTime := if cw then DateTime.inf else DateTime.min

/-- Advancing `it_st` by one (`++it_st`): forward iterator forward, reverse
iterator backward in the global `stop_times` vector. -/
def vCursorNext (cw : Bool) (c : Nat) : Nat := if cw then c + 1 else c - 1

/-- `better` on labels: arrivals forward, departures reverse. -/
def vBetterRet (cw : Bool) (a b : type_retour) : Bool :=
  if cw then decide (a.arrival.val < b.arrival.val) else decide (b.departure.val < a.departure.val)

/-- `previous_datetime(τ)`: `arrival` forward, `departure` reverse. -/
def vPrevDT (cw : Bool) (r : type_retour) : DateTime := if cw then r.arrival else r.departure

/-- `current_datetime(date, st)`: the stop-time's departure (forward) or
arrival (reverse) on the given date. -/
def vCurDT (cw : Bool) (date : Nat) (st : StopTime) : DateTime :=
  if cw then DateTime.ofDateHour date st.departure_time
  else DateTime.ofDateHour date st.arrival_time

/-- `better_or_equal(τ, current_dt, st)`. -/
def vBetterOrEq (cw : Bool) (a : type_retour) (current : DateTime) (st : StopTime) : Bool :=
  if cw then decide ((vPrevDT cw a).val ≤ (vCurDT cw current.date st).val)
  else decide ((vCurDT cw current.date st).val ≤ (vPrevDT cw a).val)

/-- The visitor's `update` used at boarding (raptor.cpp:534-536 and 631-633):
note the forward version rolls to the stop-time's `arrival_time`. -/
def vUpdate (cw : Bool) (dt : DateTime) (st : StopTime) : DateTime :=
  if cw then dt.update st.arrival_time else dt.updatereverse st.departure_time

/-- `best_trip`: `earliest_trip` forward, `tardiest_trip` reverse. -/
def vBestTrip (cw : Bool) (d : Data) (route : Route) (order : Nat) (dt : DateTime) : Int :=
  if cw then earliest_trip d route order dt else tardiest_trip d route order dt

/-- `reset_queue_item`: `int` max forward, `-1` reverse. -/
def vQReset (cw : Bool) : Int := if cw then intMax else -1

/-- `store_better` dispatch on the direction. -/
def vStoreBetter (cw : Bool) (d : Data) (s : RState) (rpid : Nat) (working : DateTime)
    (bound : type_retour) (st : StopTime) (emb : Nat) : RState × DateTime × Bool :=
  if cw then raptor_visitor.store_better d s rpid working bound st emb
  else raptor_reverse_visitor.store_better d s rpid working bound st emb

/-- The positions, in the global `route_points` vector, visited by
`visitor.route_points(route, order)` (raptor.cpp:519-523 and 616-621): forward
from `route_point_list[order]` up to `route_point_list.back()`; reverse from
`route_point_list[order]` down, `order + 1` entries. -/
def routePositions (cw : Bool) (route : Route) (order : Nat) : List Nat :=
  if cw then
    let start := route.route_point_list.getD order 0
    let last := route.route_point_list.getLastD 0
    List.range' start (last + 1 - start)
  else
    let start := route.route_point_list.getD order 0
    (List.range (order + 1)).map (fun k => start - k)

/-- The storing half of a route-point iteration (raptor.cpp:663-671): while a
trip is boarded, advance the stop-time cursor and attempt to store a better
label at the current route point, accumulating the `end` flag. -/
def scanRpStore (d : Data) (cw global_pruning : Bool) (rp : RoutePoint)
    (acc : RState × ScanState × Bool) : RState × ScanState × Bool :=
  let s := acc.1
  let sc := acc.2.1
  let e := acc.2.2
  if 0 ≤ sc.t then
    let cursor := vCursorNext cw sc.cursor
    let st := d.stop_times.getD cursor default
    let sc := { sc with cursor := cursor }
    if sc.l_zone = lzMax ∨ sc.l_zone ≠ st.local_traffic_zone then
      let bound :=
        if vBetterRet cw (s.getBest rp.idx) s.b_dest.best_now = true ∨ global_pruning = false
        then s.getBest rp.idx else s.b_dest.best_now
      let r := vStoreBetter cw d s rp.idx sc.workingDt bound st sc.embarquement
      (r.1, { sc with workingDt := r.2.1 }, r.2.2 && e)
    else (s, sc, e)
  else (s, sc, e)

/-- The trip-catching half of a route-point iteration (raptor.cpp:674-688):
when the previous round's label enables an earlier/later trip, rebind the
boarding state.  It modifies only the scan variables. -/
def scanRpCatch (d : Data) (cw : Bool) (route : Route) (rp : RoutePoint)
    (acc : RState × ScanState × Bool) : RState × ScanState × Bool :=
  let s := acc.1
  let sc := acc.2.1
  let e := acc.2.2
  let retour_temp := s.getRetour (s.count - 1) rp.idx
  let st_cur := d.stop_times.getD sc.cursor default
  if retour_temp.type ≠ RType.uninitialized ∧
      (sc.t = -1 ∨ vBetterOrEq cw retour_temp sc.workingDt st_cur = true) then
    let etemp := vBestTrip cw d route rp.order (vPrevDT cw retour_temp)
    if 0 ≤ etemp ∧ sc.t ≠ etemp then
      let cursor := (d.vehicle_journeys.getD etemp.toNat default).stop_time_list.getD rp.order 0
      let st2 := d.stop_times.getD cursor default
      let wd := vUpdate cw (vPrevDT cw retour_temp) st2
      (s, ⟨etemp, rp.idx, wd, cursor, st2.local_traffic_zone⟩, e)
    else (s, sc, e)
  else (s, sc, e)

/-- One iteration of the `BOOST_FOREACH` over route points (raptor.cpp:662-688):
possibly store a label at the current route point while a trip is boarded, then
possibly catch a better trip from the previous round's label. -/
def scanRp (d : Data) (cw global_pruning : Bool) (route : Route)
    (acc : RState × ScanState × Bool) (pos : Nat) : RState × ScanState × Bool :=
  let rp := d.route_points.getD pos default
  scanRpCatch d cw route rp (scanRpStore d cw global_pruning rp acc)

/-- The per-route re-initialization of the boarding state (raptor.cpp:658-660):
`t`, `embarquement` and the working datetime are reset; `l_zone` and the
stop-time cursor are NOT touched here (they keep their values from the
previously scanned route). -/
def scanRouteInit (cw : Bool) (sc : ScanState) : ScanState :=
  { sc with t := -1, embarquement := vEmbInit cw, workingDt := vWdInit cw }

/-- Scanning one route of the round (raptor.cpp:656-692), including the final
`reset_queue_item`. -/
def scanRoute (d : Data) (cw global_pruning : Bool) (acc : RState × ScanState × Bool)
    (route : Route) : RState × ScanState × Bool :=
  let s := acc.1
  let q := s.Q.getD route.idx (vQReset cw)
  let r :=
    if q ≠ intMax ∧ q ≠ -1 ∧ s.routes_valides.getD route.idx false = true then
      (routePositions cw route q.toNat).foldl (scanRp d cw global_pruning route)
        (s, scanRouteInit cw acc.2.1, acc.2.2)
    else acc
  ({ r.1 with Q := r.1.Q.set route.idx (vQReset cw) }, r.2.1, r.2.2)

/-- `one_more_step()`: append a fresh round of sentinel labels. -/
def oneMoreStep (d : Data) (cw : Bool) (s : RState) : RState :=
  { s with retour := s.retour ++ [if cw then retour_constant d else retour_constant_reverse d] }

/-- `make_queue()`: clear both marking bitsets. -/
def makeQueue (s : RState) : RState :=
  { s with marked_rp := s.marked_rp.map (fun _ => false),
           marked_sp := s.marked_sp.map (fun _ => false) }

/-- The connection relaxer dispatch. -/
def vRoutePathConnections (cw : Bool) (d : Data) (s : RState) : RState :=
  if cw then RAPTOR.route_path_connections_forward d s
  else RAPTOR.route_path_connections_backward d s

/-- The head of the round body (raptor.cpp:650-653): bump the round counter and
append a fresh round slice when the tensor is exhausted. -/
def roundPrep (d : Data) (cw : Bool) (s : RState) : RState :=
  let s := { s with count := s.count + 1 }
  if s.count = s.retour.length then oneMoreStep d cw s else s

/-- One iteration of the `while(!end)` body of `raptor_loop`
(raptor.cpp:649-695): bump the round counter, append a round slice if needed,
clear the markings, scan every route (accumulating the `end` flag through
`store_better`), then relax route-path connections and footpaths. -/
def raptorRound (d : Data) (cw global_pruning : Bool) (s : RState) (sc : ScanState) :
    RState × ScanState × Bool :=
  let r := d.routes.foldl (scanRoute d cw global_pruning)
    (makeQueue (roundPrep d cw s), sc, true)
  (RAPTOR.foot_path d cw (vRoutePathConnections cw d r.1), r.2.1, r.2.2)

/-- The `while(!end)` loop of `raptor_loop`, with explicit fuel (`none` when the
fuel runs out before the loop exits). -/
def raptorLoopAux (d : Data) (cw global_pruning : Bool) :
    Nat → RState → ScanState → Option RState
  | 0, _, _ => none
  | fuel + 1, s, sc =>
    let r := raptorRound d cw global_pruning s sc
    if r.2.2 = true then some r.1 else raptorLoopAux d cw global_pruning fuel r.1 r.2.1

/-- `RAPTOR::raptor_loop` (raptor.cpp:640-696): reset the round counter and the
scan variables, run the initial footpath closure, then iterate rounds until a
round leaves the `end` flag true. -/
def RAPTOR.raptor_loop (d : Data) (cw global_pruning : Bool) (fuel : Nat) (s : RState) :
    Option RState :=
  let s := { s with count := 0 }
  let sc : ScanState := ⟨-1, vEmbInit cw, vWdInit cw, 0, lzMax⟩
  let s := RAPTOR.foot_path d cw s
  raptorLoopAux d cw global_pruning fuel s sc

/-- `RAPTOR::boucleRAPTOR`. -/
def RAPTOR.boucleRAPTOR (d : Data) (global_pruning : Bool) (fuel : Nat) (s : RState) :
    Option RState :=
  RAPTOR.raptor_loop d true global_pruning fuel s

/-- `RAPTOR::boucleRAPTORreverse`. -/
def RAPTOR.boucleRAPTORreverse (d : Data) (global_pruning : Bool) (fuel : Nat) (s : RState) :
    Option RState :=
  RAPTOR.raptor_loop d false global_pruning fuel s

/-! ## Route validity (`RAPTOR::set_routes_valides`, raptor.cpp:413-441) -/

/-- The forbidden-list check of `set_routes_valides` (raptor.cpp:421-429): a
route is blacklisted when some (kind, code) pair matches — kind `line` against
the line's external code, `route` against the route's, `mode` against the mode
type's. -/
def forbidden_matches (d : Data) (route : Route) (forbidden : List (String × String)) : Bool :=
  forbidden.any (fun pr =>
    (pr.1 == "line" && pr.2 == (d.lines.getD route.line_idx default).external_code) ||
    (pr.1 == "route" && pr.2 == route.external_code) ||
    (pr.1 == "mode" && pr.2 == (d.mode_types.getD route.mode_type_idx default).external_code))

/-- The circulation check of `set_routes_valides` (raptor.cpp:433-438): some
vehicle journey of the route has a validity pattern firing (via `check2`)
around the query date. -/
def route_has_valid_vj (d : Data) (route : Route) (date : Nat) : Bool :=
  route.vehicle_journey_list.any (fun vjidx =>
    (d.validity_patterns.getD (d.vehicle_journeys.getD vjidx default).validity_pattern_idx
      default).check2 date)

/-- `RAPTOR::set_routes_valides` (raptor.cpp:413-441): rebuild the
`routes_valides` bitset, setting the bit `route.idx` of each route that is not
forbidden and has a circulating vehicle journey. -/
def RAPTOR.set_routes_valides (d : Data) (date : Nat) (forbidden : List (String × String)) :
    List Bool :=
  d.routes.foldl
    (fun acc route =>
      if forbidden_matches d route forbidden = false ∧ route_has_valid_vj d route date = true
      then acc.set route.idx true else acc)
    (List.replicate d.routes.length false)

/-! ## Initialization (`RAPTOR::clear_and_init`, raptor.cpp:192-246) -/

/-- Modelled from the spec: `init::Departure_Type` (declared outside `src/`), a
round-0 seed: a route point with its seed arrival/departure datetimes. -/
structure DepartureType where
  rpidx : Nat
  arrival : DateTime
  departure : DateTime
deriving DecidableEq, Repr

/-- Modelled from the spec: `init::getDepartures(departs, dt, clockwise, data)`
(outside `src/`) — "seed round 0 from `departs`", one seed per route point of
each departure stop point, at the query datetime shifted by the access walk of
`distance_meters / 1.38` seconds (truncated), forward or backward according to
the direction. -/
def init.getDepartures (d : Data) (departs : List (Nat × ℚ)) (dt : DateTime) (clockwise : Bool) :
    List DepartureType :=
  departs.foldl
    (fun acc pr =>
      acc ++ (d.stop_points.getD pr.1 default).route_point_list.map (fun rp =>
        let w : Nat := (pr.2 / (1.38 : ℚ)).floor.toNat
        let a : DateTime := if clockwise then ⟨dt.val + w⟩ else ⟨dt.val - w⟩
        ⟨rp, a, a⟩))
    []

/-- Modelled from the spec: the second `init::getDepartures` overload (outside
`src/`) used between the two passes — "for every initial route-point that
reached a destination in the forward pass, … seed from that rp with its known
arrival as the reverse-pass bound": for each route point of the second
argument's stop points whose label tensor holds an initialized label, one seed
carrying the best instant found for it. -/
def init.getDeparturesAfter (d : Data) (_first : List (Nat × ℚ)) (second : List (Nat × ℚ))
    (clockwise : Bool) (retour : List (List type_retour)) : List DepartureType :=
  second.foldl
    (fun acc pr =>
      acc ++ (d.stop_points.getD pr.1 default).route_point_list.foldl
        (fun acc2 rp =>
          let found := retour.foldl
            (fun (f : Option DateTime) round =>
              let r := round.getD rp retour_sentinel
              if r.type ≠ RType.uninitialized then
                let v := if clockwise then r.departure else r.arrival
                match f with
                | none => some v
                | some a =>
                  some (if clockwise then (if a.val < v.val then v else a)
                        else (if v.val < a.val then v else a))
              else f)
            none
          match found with
          | none => acc2
          | some a => acc2 ++ [⟨rp, a, a⟩])
        [])
    []

/-- `RAPTOR::clear_and_init` (raptor.cpp:192-246): reset the queue, optionally
clear the label tensor / best array / destination tracker (with the reverse
`inf → min` bound rewrite of lines 212-214), seed round 0 and the queue and the
stop-point markings from `departs`, then register the destinations (egress walk
`meters / 1.38` seconds) and lift their `best` entries to the bound. -/
def RAPTOR.clear_and_init (d : Data) (s : RState) (departs : List DepartureType)
    (destinations : List (Nat × ℚ)) (borne : DateTime) (clockwise clear : Bool) : RState :=
  let s := { s with Q := List.replicate d.routes.length (if clockwise then intMax else -1) }
  let borne := if clear ∧ clockwise = false ∧ borne = DateTime.inf then DateTime.min else borne
  let s :=
    if clear then
      if clockwise then
        { s with retour := [retour_constant d], best := retour_constant d,
                 b_dest := best_dest.reinit d.route_points.length borne clockwise }
      else
        { s with retour := [retour_constant_reverse d], best := retour_constant_reverse d,
                 b_dest := best_dest.reinit d.route_points.length borne clockwise }
    else s
  let s := departs.foldl
    (fun s item =>
      let r := type_retour.mkSeed item.arrival item.arrival
      let s := (s.setRetour 0 item.rpidx r).setBest item.rpidx r
      let route_point := d.route_points.getD item.rpidx default
      let s :=
        if clockwise ∧ (route_point.order : Int) < s.Q.getD route_point.route_idx 0 then
          { s with Q := s.Q.set route_point.route_idx route_point.order }
        else if clockwise = false ∧ s.Q.getD route_point.route_idx 0 < (route_point.order : Int) then
          { s with Q := s.Q.set route_point.route_idx route_point.order }
        else s
      if item.arrival ≠ DateTime.min ∧ item.arrival ≠ DateTime.inf then
        { s with marked_sp := s.marked_sp.set route_point.stop_point_idx true }
      else s)
    s
  let s := destinations.foldl
    (fun s item =>
      (d.stop_points.getD item.1 default).route_point_list.foldl
        (fun s rpidx =>
          if s.routes_valides.getD (d.route_points.getD rpidx default).route_idx false = true ∧
              ((clockwise ∧ (borne = DateTime.inf ∨ borne.val < (s.getBest rpidx).arrival.val)) ∨
               (clockwise = false ∧
                 (borne = DateTime.min ∨ (s.getBest rpidx).departure.val < borne.val))) then
            let s := { s with b_dest := s.b_dest.ajouter_destination rpidx (item.2 / (1.38 : ℚ)) }
            if clockwise then s.setBest rpidx { s.getBest rpidx with arrival := borne }
            else s.setBest rpidx { s.getBest rpidx with departure := borne }
          else s)
        s)
    s
  { s with count := 1 }

/-! ## Paths and reconstruction (`RAPTOR::makePath`, raptor.cpp:763-909) -/

inductive ItemType where
  | public_transport
  | walking
  | extension
  | guarantee
deriving DecidableEq, Repr

structure PathItem where
  type : ItemType
  stop_points : List Nat
  arrivals : List DateTime
  departures : List DateTime
  arrival : DateTime
  departure : DateTime
  vj_idx : Nat
deriving DecidableEq, Repr

instance : Inhabited PathItem :=
  ⟨⟨ItemType.public_transport, [], [], [], DateTime.min, DateTime.min, invalid_idx⟩⟩

/-- Modelled from the spec: the `PathItem(DateTime, DateTime)` constructor
(outside `src/`), taking the item's departure and arrival. -/
def mkPathItem (dep arr : DateTime) : PathItem :=
  ⟨ItemType.public_transport, [], [], [], arr, dep, invalid_idx⟩

structure Path where
  items : List PathItem
  duration : Int
  nb_changes : Nat
  percent_visited : Nat
deriving DecidableEq, Repr

instance : Inhabited Path := ⟨⟨[], 0, 0, 0⟩⟩

/-- The inner stop-time walk of a public-transport leg (raptor.cpp:823-847):
follow the vehicle journey's stop times one by one (backward in the global
vector for a forward reconstruction, forward for a reverse one) until the
boarding route point is reached, collecting stop points and instants. -/
def makePathInner (d : Data) (rev : Bool) (rpid_emb : Nat) :
    Nat → Nat → StopTime → DateTime → PathItem →
    Option (Nat × StopTime × DateTime × PathItem)
  | 0, _, _, _, _ => none
  | fuelI + 1, current_rpid, current_st, workingDate, item =>
    if rpid_emb ≠ current_rpid then
      let item := { item with
        stop_points := item.stop_points ++ [(d.route_points.getD current_rpid default).stop_point_idx] }
      let r :=
        if rev = false then
          let w1 := workingDate.updatereverse current_st.departure_time
          let item := { item with departures := item.departures ++ [w1] }
          let w2 := w1.updatereverse current_st.arrival_time
          (w2, { item with arrivals := item.arrivals ++ [w2] })
        else
          let w1 := workingDate.update current_st.arrival_time
          let item := { item with arrivals := item.arrivals ++ [w1] }
          let w2 := w1.update current_st.departure_time
          (w2, { item with departures := item.departures ++ [w2] })
      let current_st2 :=
        d.stop_times.getD (if rev = false then current_st.idx - 1 else current_st.idx + 1) default
      makePathInner d rev rpid_emb fuelI current_st2.route_point_idx current_st2 r.1 r.2
    else some (current_rpid, current_st, workingDate, item)

/-- The `while(!stop)` label walk of `makePath` (raptor.cpp:780-877), with fuel;
produces the path items in emission order. -/
def makePathLoop (d : Data) (s : RState) (rev : Bool) (fuelI : Nat) :
    Nat → Nat → Nat → DateTime → List PathItem → Option (List PathItem)
  | 0, _, _, _, _ => none
  | fuel + 1, countb, current_rpid, workingDate, items =>
    let rcur := s.getRetour countb current_rpid
    if rcur.type = RType.connection ∨ rcur.type = RType.connection_extension ∨
        rcur.type = RType.connection_guarantee then
      let r := rcur
      let r2 := s.getRetour countb r.rpid_embarquement
      let item0 := if rev then mkPathItem r.departure r2.arrival else mkPathItem r2.arrival r.departure
      let item := { item0 with
        stop_points := [(d.route_points.getD current_rpid default).stop_point_idx,
          (d.route_points.getD r.rpid_embarquement default).stop_point_idx],
        type :=
          if r.type = RType.connection then ItemType.walking
          else if r.type = RType.connection_extension then ItemType.extension
          else ItemType.guarantee }
      let items := items ++ [item]
      let current_rpid := r.rpid_embarquement
      if (s.getRetour countb current_rpid).type = RType.depart then some items
      else makePathLoop d s rev fuelI fuel countb current_rpid workingDate items
    else
      let r := rcur
      let current_st := d.stop_times.getD r.stop_time_idx default
      let workingDate := if rev = false then r.departure else r.arrival
      let item : PathItem :=
        ⟨ItemType.public_transport, [], [], [], DateTime.min, DateTime.min,
          current_st.vehicle_journey_idx⟩
      match makePathInner d rev r.rpid_embarquement fuelI current_rpid current_st workingDate item with
      | none => none
      | some res =>
        let current_rpid := res.1
        let st2 := res.2.1
        let wd := res.2.2.1
        let item := res.2.2.2
        let item := { item with
          stop_points := item.stop_points ++ [(d.route_points.getD current_rpid default).stop_point_idx] }
        let r2 :=
          if rev = false then
            let w1 := wd.updatereverse st2.departure_time
            let item := { item with departures := item.departures ++ [w1] }
            let w2 := w1.updatereverse st2.arrival_time
            let item := { item with arrivals := item.arrivals ++ [w2] }
            (w2, { item with arrival := item.arrivals.headD default,
                             departure := item.departures.getLastD default })
          else
            let w1 := wd.update st2.arrival_time
            let item := { item with arrivals := item.arrivals ++ [w1] }
            let w2 := w1.update st2.departure_time
            let item := { item with departures := item.departures ++ [w2] }
            (w2, { item with arrival := item.arrivals.getLastD default,
                             departure := item.departures.headD default })
        let items := items ++ [r2.2]
        let countb := countb - 1
        if (s.getRetour countb current_rpid).type = RType.depart then some items
        else makePathLoop d s rev fuelI fuel countb current_rpid r2.1 items

/-- The metadata block closing `makePath` (raptor.cpp:879-908): chronological
re-ordering for forward reconstructions is done by the caller; here the
duration, visited percentage and number of changes are computed. -/
def makePathFinalize (d : Data) (s : RState) (items : List PathItem) : Path :=
  { items := items
    duration :=
      if 0 < items.length then
        ((items.getLastD default).arrival.val : Int) - ((items.headD default).departure.val : Int)
      else 0
    percent_visited :=
      100 * (s.best.countP (fun t => t.type ≠ RType.uninitialized)) / d.stop_points.length
    nb_changes :=
      if 2 < items.length then
        (List.range (items.length - 2)).countP
          (fun i => (items.getD (i + 1) default).type == ItemType.walking)
      else 0 }

/-- `RAPTOR::makePath` (raptor.cpp:763-909): walk the labels back from the
destination route point at round `countb`, then (forward) restore chronological
order, and fill in the metadata. -/
def RAPTOR.makePath (d : Data) (s : RState) (fuel fuelI : Nat) (destination_idx countb : Nat)
    (rev : Bool) : Option Path :=
  let r := s.getRetour countb destination_idx
  let workingDate := if rev = false then r.arrival else r.departure
  match makePathLoop d s rev fuelI fuel countb destination_idx workingDate [] with
  | none => none
  | some items =>
    let items :=
      if rev = false then
        (items.map (fun it =>
          { it with stop_points := it.stop_points.reverse, arrivals := it.arrivals.reverse,
                    departures := it.departures.reverse })).reverse
      else items
    some (makePathFinalize d s items)

/-- `RAPTOR::makePathreverse` (raptor.cpp:915-917). -/
def RAPTOR.makePathreverse (d : Data) (s : RState) (fuel fuelI : Nat)
    (destination_idx countb : Nat) : Option Path :=
  RAPTOR.makePath d s fuel fuelI destination_idx countb true

/-! ## Path selection (`RAPTOR::makePathes`, raptor.cpp:708-755)

Distances are rationals (C++ `double`); the comparisons against datetimes are
carried out in `ℚ` over the scalar value. -/

/-- The per-destination-route-point update of the `makePathes` selection loop
(raptor.cpp:715-718): note that the acceptance test converts the distance with
`/ 1.38` while the update of `dt` adds the raw distance to `best`'s arrival. -/
def makePathes_select_step (s : RState) (i : Nat) (spid_dist : Nat × ℚ) (acc : ℚ × Nat)
    (dest : Nat) : ℚ × Nat :=
  if (s.getRetour i dest).type ≠ RType.uninitialized ∧
      ((s.getRetour i dest).arrival.val : ℚ) + spid_dist.2 / (1.38 : ℚ) ≤ acc.1 then
    (((s.getBest dest).arrival.val : ℚ) + spid_dist.2, dest)
  else acc

/-- The round-`i` selection of `makePathes` (raptor.cpp:712-720). -/
def makePathes_select_round (d : Data) (s : RState) (destinations : List (Nat × ℚ)) (i : Nat)
    (dt : ℚ) : ℚ × Nat :=
  destinations.foldl
    (fun acc spid_dist =>
      (d.stop_points.getD spid_dist.1 default).route_point_list.foldl
        (makePathes_select_step s i spid_dist) acc)
    (dt, 2147483647)

/-- `RAPTOR::makePathes` (raptor.cpp:708-726): for each round, select a
destination route point (threading the shrinking `dt` bound across rounds) and
reconstruct a path from it. -/
def RAPTOR.makePathes (d : Data) (s : RState) (fuel fuelI : Nat)
    (destinations : List (Nat × ℚ)) (dt : ℚ) : Option (List Path) :=
  let sel := (List.range s.count).foldl
    (fun (acc : ℚ × List (Nat × Nat)) i0 =>
      let i := i0 + 1
      let r := makePathes_select_round d s destinations i acc.1
      if r.2 ≠ 2147483647 then (r.1, acc.2 ++ [(r.2, i)]) else (r.1, acc.2))
    (dt, [])
  sel.2.foldl
    (fun (acc : Option (List Path)) pr =>
      match acc, RAPTOR.makePath d s fuel fuelI pr.1 pr.2 false with
      | some l, some p => some (l ++ [p])
      | _, _ => none)
    (some [])

/-- The per-destination-route-point update of the `makePathesreverse` selection
loop (raptor.cpp:741-747); here the distance is converted with `/ 1.38`. -/
def makePathesreverse_select_step (s : RState) (i : Nat) (spid_dist : Nat × ℚ) (acc : ℚ × Nat)
    (dest : Nat) : ℚ × Nat :=
  if (s.getRetour i dest).type ≠ RType.uninitialized then
    let current_dt : ℚ := ((s.getRetour i dest).departure.val : ℚ) - spid_dist.2 / (1.38 : ℚ)
    if acc.1 ≤ current_dt then (current_dt, dest) else acc
  else acc

/-- `RAPTOR::makePathesreverse` (raptor.cpp:732-755). -/
def RAPTOR.makePathesreverse (d : Data) (s : RState) (fuel fuelI : Nat)
    (destinations : List (Nat × ℚ)) (dt : ℚ) : Option (List Path) :=
  let sel := (List.range s.count).foldl
    (fun (acc : ℚ × List (Nat × Nat)) i0 =>
      let i := i0 + 1
      let r := destinations.foldl
        (fun acc2 spid_dist =>
          (d.stop_points.getD spid_dist.1 default).route_point_list.foldl
            (makePathesreverse_select_step s i spid_dist) acc2)
        (acc.1, invalid_idx)
      if r.2 ≠ invalid_idx then (r.1, acc.2 ++ [(r.2, i)]) else (r.1, acc.2))
    (dt, [])
  sel.2.foldl
    (fun (acc : Option (List Path)) pr =>
      match acc, RAPTOR.makePathreverse d s fuel fuelI pr.1 pr.2 with
      | some l, some p => some (l ++ [p])
      | _, _ => none)
    (some [])

/-! ## Search drivers (`RAPTOR::compute_all` / `compute_reverse_all`,
raptor.cpp:250-282 and 377-409, single-datetime overloads) -/

/-- A fresh engine state for the given timetable. -/
def initialState (d : Data) : RState :=
  ⟨[], [], [], List.replicate d.route_points.length false,
    List.replicate d.stop_points.length false, default,
    List.replicate d.routes.length false, 0⟩

/-- The first (forward) phase of `compute_all` (raptor.cpp:256-260): route
validity, initialization and the forward round loop. -/
def RAPTOR.compute_all_first_phase (d : Data) (fuel : Nat)
    (departs destinations : List (Nat × ℚ)) (dt_depart borne : DateTime)
    (forbidden : List (String × String)) : Option RState :=
  let s := { initialState d with
    routes_valides := RAPTOR.set_routes_valides d dt_depart.date forbidden }
  let departures := init.getDepartures d departs dt_depart true
  let s := RAPTOR.clear_and_init d s departures destinations borne true true
  RAPTOR.boucleRAPTOR d false fuel s

/-- `RAPTOR::compute_all` (single-datetime, raptor.cpp:250-282): forward pass,
then — unless no journey was found — one reverse pass and reverse
reconstruction per seed (the forward-pass `makePathes` call is commented out in
the source). -/
def RAPTOR.compute_all (d : Data) (fuel fuelP fuelI : Nat)
    (departs destinations : List (Nat × ℚ)) (dt_depart borne : DateTime)
    (forbidden : List (String × String)) : Option (List Path) :=
  match RAPTOR.compute_all_first_phase d fuel departs destinations dt_depart borne forbidden with
  | none => none
  | some s =>
    if s.b_dest.best_now.type = RType.uninitialized then some []
    else
      let departures := init.getDeparturesAfter d departs destinations false s.retour
      (departures.foldl
        (fun (acc : Option (List Path × RState)) departure =>
          match acc with
          | none => none
          | some res =>
            let s := RAPTOR.clear_and_init d res.2 [departure] departs departure.departure false true
            match RAPTOR.boucleRAPTORreverse d true fuel s with
            | none => none
            | some s2 =>
              if s2.b_dest.best_now.type ≠ RType.uninitialized then
                match RAPTOR.makePathesreverse d s2 fuelP fuelI departs (dt_depart.val : ℚ) with
                | none => none
                | some temp => some (res.1 ++ temp, s2)
              else some (res.1, s2))
        (some ([], s))).map Prod.fst

/-- The first (reverse) phase of `compute_reverse_all` (raptor.cpp:383-386). -/
def RAPTOR.compute_reverse_all_first_phase (d : Data) (fuel : Nat)
    (departs destinations : List (Nat × ℚ)) (dt_depart borne : DateTime)
    (forbidden : List (String × String)) : Option RState :=
  let s := { initialState d with
    routes_valides := RAPTOR.set_routes_valides d dt_depart.date forbidden }
  let departures := init.getDepartures d destinations dt_depart false
  let s := RAPTOR.clear_and_init d s departures departs borne false true
  RAPTOR.boucleRAPTORreverse d true fuel s

/-- `RAPTOR::compute_reverse_all` (single-datetime, raptor.cpp:377-409). -/
def RAPTOR.compute_reverse_all (d : Data) (fuel fuelP fuelI : Nat)
    (departs destinations : List (Nat × ℚ)) (dt_depart borne : DateTime)
    (forbidden : List (String × String)) : Option (List Path) :=
  match RAPTOR.compute_reverse_all_first_phase d fuel departs destinations dt_depart borne
      forbidden with
  | none => none
  | some s =>
    if s.b_dest.best_now.type = RType.uninitialized then some []
    else
      let departures := init.getDeparturesAfter d destinations departs true s.retour
      (departures.foldl
        (fun (acc : Option (List Path × RState)) departure =>
          match acc with
          | none => none
          | some res =>
            let s := RAPTOR.clear_and_init d res.2 [departure] destinations dt_depart true true
            match RAPTOR.boucleRAPTOR d true fuel s with
            | none => none
            | some s2 =>
              if s2.b_dest.best_now.type ≠ RType.uninitialized then
                match RAPTOR.makePathes d s2 fuelP fuelI destinations (dt_depart.val : ℚ) with
                | none => none
                | some temp => some (res.1 ++ temp, s2)
              else some (res.1, s2))
        (some ([], s))).map Prod.fst

/-! ## Basic state lemmas -/

theorem getRetour_setBest (s : RState) (rp : Nat) (r : type_retour) (k i : Nat) :
    (s.setBest rp r).getRetour k i = s.getRetour k i := rfl

theorem count_setBest (s : RState) (rp : Nat) (r : type_retour) :
    (s.setBest rp r).count = s.count := rfl

theorem count_setRetour (s : RState) (k rp : Nat) (r : type_retour) :
    (s.setRetour k rp r).count = s.count := rfl

theorem getRetour_setRetour_self (s : RState) (k rp : Nat) (r : type_retour)
    (hk : k < s.retour.length) (hrp : rp < (s.retour.getD k []).length) :
    (s.setRetour k rp r).getRetour k rp = r := by
  unfold RState.setRetour RState.getRetour
  simp only [List.getD_eq_getElem?_getD, List.getElem?_set_self, hk, if_pos]
  simp only [Option.getD_some, List.getElem?_set_self]
  have : rp < ((s.retour.getD k [])).length := hrp
  simp [List.getD_eq_getElem?_getD] at this ⊢
  simp [List.getElem?_set_self, this]

theorem getBest_setRetour (s : RState) (k rp : Nat) (r : type_retour) (i : Nat) :
    (s.setRetour k rp r).getBest i = s.getBest i := rfl

theorem getBest_setBest_self (s : RState) (rp : Nat) (r : type_retour)
    (h : rp < s.best.length) : (s.setBest rp r).getBest rp = r := by
  unfold RState.setBest RState.getBest
  simp [List.getD_eq_getElem?_getD, List.getElem?_set_self, h]

/-! ## Claim C1 -/

/-- The property claimed by C1 of the two `store_better` functions: the label
written at round `count` for the scanned route point is the candidate (working
datetime rolled to the stop-time's arrival forward / departure reverse) exactly
when the candidate strictly improves the bound with drop-off (forward) /
pick-up (reverse) allowed, or ties the bound with the previous round's label
uninitialized and the destination tracker accepting the offer; otherwise the
stored label is unchanged. -/
def store_better_iff_prop (d : Data) (s : RState) (rpid : Nat) (working : DateTime)
    (bound : type_retour) (st : StopTime) (emb : Nat) : Prop :=
  ((raptor_visitor.store_better d s rpid working bound st emb).1.getRetour s.count rpid =
    (if (working.update st.arrival_time).val < bound.arrival.val ∧ st.drop_off_allowed = true ∨
        working.update st.arrival_time = bound.arrival ∧
          (s.getRetour (s.count - 1) rpid).type = RType.uninitialized ∧
          (s.b_dest.ajouter_best rpid
            (type_retour.ofStopTime st (working.update st.arrival_time) emb true) s.count).2 = true
     then type_retour.ofStopTime st (working.update st.arrival_time) emb true
     else s.getRetour s.count rpid))
  ∧
  ((raptor_reverse_visitor.store_better d s rpid working bound st emb).1.getRetour s.count rpid =
    (if bound.departure.val < (working.updatereverse st.departure_time).val ∧
        st.pick_up_allowed = true ∨
        working.updatereverse st.departure_time = bound.departure ∧
          (s.getRetour (s.count - 1) rpid).type = RType.uninitialized ∧
          (s.b_dest.ajouter_best_reverse rpid
            (type_retour.ofStopTime st (working.updatereverse st.departure_time) emb false)
            s.count).2 = true
     then type_retour.ofStopTime st (working.updatereverse st.departure_time) emb false
     else s.getRetour s.count rpid))

/-- C1: in the route scan, for every route-point reached while a trip is
boarded, `store_better` installs a label at that route-point iff the candidate
datetime (`working_dt` rolled to the stop-time's arrival in forward mode /
departure in reverse mode) strictly improves the given bound and the stop-time
permits drop-off (forward) or pick-up (reverse); when the candidate exactly
equals the bound, a label is stored only if the previous round's label at that
route-point is uninitialized and the destination tracker accepts the offer. -/
theorem C1_store_better_installs_iff (d : Data) (s : RState) (rpid : Nat) (working : DateTime)
    (bound : type_retour) (st : StopTime) (emb : Nat)
    (hk : s.count < s.retour.length) (hrp : rpid < (s.retour.getD s.count []).length) :
    store_better_iff_prop d s rpid working bound st emb := by
  constructor
  · simp only [raptor_visitor.store_better]
    by_cases h1 : (working.update st.arrival_time).val < bound.arrival.val ∧
        st.drop_off_allowed = true
    · rw [if_pos h1, if_pos (Or.inl h1)]
      split <;> exact getRetour_setRetour_self s s.count rpid _ hk hrp
    · rw [if_neg h1]
      by_cases h3 : working.update st.arrival_time = bound.arrival ∧
          (s.getRetour (s.count - 1) rpid).type = RType.uninitialized
      · rw [if_pos h3]
        by_cases h4 : (s.b_dest.ajouter_best rpid
            (type_retour.ofStopTime st (working.update st.arrival_time) emb true) s.count).2 = true
        · rw [if_pos h4, if_pos (Or.inr ⟨h3.1, h3.2, h4⟩)]
          exact getRetour_setRetour_self { s with b_dest := _ } s.count rpid _ hk hrp
        · rw [if_neg h4,
            if_neg (fun hc => hc.elim (fun hc => h1 hc) (fun hc => h4 hc.2.2))]
          rfl
      · rw [if_neg h3,
          if_neg (fun hc => hc.elim (fun hc => h1 hc) (fun hc => h3 ⟨hc.1, hc.2.1⟩))]
  · simp only [raptor_reverse_visitor.store_better]
    by_cases h1 : bound.departure.val < (working.updatereverse st.departure_time).val ∧
        st.pick_up_allowed = true
    · rw [if_pos h1, if_pos (Or.inl h1)]
      split <;> exact getRetour_setRetour_self s s.count rpid _ hk hrp
    · rw [if_neg h1]
      by_cases h3 : working.updatereverse st.departure_time = bound.departure ∧
          (s.getRetour (s.count - 1) rpid).type = RType.uninitialized
      · rw [if_pos h3]
        by_cases h4 : (s.b_dest.ajouter_best_reverse rpid
            (type_retour.ofStopTime st (working.updatereverse st.departure_time) emb false)
            s.count).2 = true
        · rw [if_pos h4, if_pos (Or.inr ⟨h3.1, h3.2, h4⟩)]
          exact getRetour_setRetour_self { s with b_dest := _ } s.count rpid _ hk hrp
        · rw [if_neg h4,
            if_neg (fun hc => hc.elim (fun hc => h1 hc) (fun hc => h4 hc.2.2))]
          rfl
      · rw [if_neg h3,
          if_neg (fun hc => hc.elim (fun hc => h1 hc) (fun hc => h3 ⟨hc.1, hc.2.1⟩))]

/-- Concrete timetable for the C1 witness. -/
def dW1 : Data := ⟨[⟨[0]⟩], [⟨0, 0, 0, 0⟩], [], [], [], [], [], [], [], [], [], []⟩

/-- Concrete engine state for the C1 witness. -/
def sW1 : RState :=
  ⟨[[retour_sentinel], [retour_sentinel]], [retour_sentinel], [], [false], [false], default,
    [false], 1⟩

/-- Witness for C1 at a concrete input. -/
theorem C1_store_better_installs_iff_witness :
    (sW1.count < sW1.retour.length ∧ 0 < (sW1.retour.getD sW1.count []).length) ∧
    store_better_iff_prop dW1 sW1 0 ⟨28800⟩ retour_sentinel
      ⟨7, 29340, 29400, 0, 1, lzMax, true, true⟩ 5 :=
  ⟨⟨by decide, by decide⟩,
    C1_store_better_installs_iff dW1 sW1 0 ⟨28800⟩ retour_sentinel
      ⟨7, 29340, 29400, 0, 1, lzMax, true, true⟩ 5 (by decide) (by decide)⟩

/-! ## Generic fold and list-update lemmas -/

theorem foldl_induction {α β : Type} (f : β → α → β) (l : List α) (init : β) (P : β → Prop)
    (h0 : P init) (hstep : ∀ b a, P b → P (f b a)) : P (l.foldl f init) := by
  induction l generalizing init with
  | nil => exact h0
  | cons a t ih => exact ih _ (hstep _ _ h0)

theorem getD_set_cases {α : Type} (l : List α) (i j : Nat) (x dflt : α) :
    (l.set i x).getD j dflt = l.getD j dflt ∨ (l.set i x).getD j dflt = x := by
  by_cases hij : i = j
  · subst hij
    by_cases h : i < l.length
    · right
      simp [List.getD_eq_getElem?_getD, List.getElem?_set_self, h]
    · left
      rw [List.set_eq_of_length_le (Nat.le_of_not_lt h)]
  · left
    simp [List.getD_eq_getElem?_getD, List.getElem?_set_ne, hij]

theorem getRetour_setRetour_cases (s : RState) (k rp : Nat) (r : type_retour) (k' i : Nat) :
    (s.setRetour k rp r).getRetour k' i = s.getRetour k' i ∨
    (s.setRetour k rp r).getRetour k' i = r := by
  unfold RState.setRetour RState.getRetour
  by_cases hk : k = k'
  · subst hk
    by_cases hlen : k < s.retour.length
    · have houter : (s.retour.set k ((s.retour.getD k []).set rp r)).getD k [] =
          (s.retour.getD k []).set rp r := by
        simp [List.getD_eq_getElem?_getD, List.getElem?_set_self, hlen]
      rw [houter]
      exact getD_set_cases _ rp i r retour_sentinel
    · left
      rw [List.set_eq_of_length_le (Nat.le_of_not_lt hlen)]
  · left
    have houter : (s.retour.set k ((s.retour.getD k []).set rp r)).getD k' [] =
        s.retour.getD k' [] := by
      simp [List.getD_eq_getElem?_getD, List.getElem?_set_ne, hk]
    rw [houter]

theorem vCompDT_irrefl (cw : Bool) (a : DateTime) : vCompDT cw a a = false := by
  cases cw <;> simp [vCompDT]

/-! ## Claim C6 -/

/-- C6: in the footpath relaxer, an inter-stop footpath label (step 4) is
installed exactly when the combined time improves OR EQUALS the current best at
the destination route-point (ties admitted), whereas a same-stop transfer label
(step 3, the 120-second slack at the same stop-point) is installed only on
strict improvement of `best` in the active direction.  First conjunct: step 3
leaves the state untouched whenever the candidate does NOT strictly improve
(that covers both an exact tie and a strictly worse candidate); second
conjunct: step 3 installs on strict improvement; third conjunct: step 4
installs both on strict improvement and on an exact tie; fourth conjunct: step
4 leaves the engine state untouched when the candidate neither improves nor
ties. -/
theorem C6_foot_path_strictness :
    (∀ (d : Data) (cw : Bool) (best_rp : Nat) (bd : DateTime) (s : RState) (rpidx : Nat),
      vCompDT cw bd (vInstant cw (s.getBest rpidx)) = false →
      foot_path_step3_one d cw best_rp bd s rpidx = s) ∧
    (∀ (d : Data) (cw : Bool) (best_rp : Nat) (bd : DateTime) (s : RState) (rpidx : Nat),
      rpidx ≠ best_rp → vCompDT cw bd (vInstant cw (s.getBest rpidx)) = true →
      s.count < s.retour.length → rpidx < (s.retour.getD s.count []).length →
      (foot_path_step3_one d cw best_rp bd s rpidx).getRetour s.count rpidx =
        type_retour.mkConnection bd bd best_rp RType.connection) ∧
    (∀ (d : Data) (cw : Bool) (best_rp : Nat) (previous : DateTime) (dur : Nat)
        (s : RState) (prec : Int) (next : DateTime) (rp : Nat),
      best_rp ≠ rp →
      (vCompDT cw (if (dur : Int) ≠ prec then vCombine cw previous dur else next)
          (vInstant cw (s.getBest rp)) = true ∨
        (if (dur : Int) ≠ prec then vCombine cw previous dur else next) =
          vInstant cw (s.getBest rp)) →
      s.count < s.retour.length → rp < (s.retour.getD s.count []).length →
      ((foot_path_step4_one d cw best_rp previous dur (s, prec, next) rp).1).getRetour
          s.count rp =
        type_retour.mkConnection
          (if (dur : Int) ≠ prec then vCombine cw previous dur else next)
          (if (dur : Int) ≠ prec then vCombine cw previous dur else next)
          best_rp RType.connection) ∧
    (∀ (d : Data) (cw : Bool) (best_rp : Nat) (previous : DateTime) (dur : Nat)
        (s : RState) (prec : Int) (next : DateTime) (rp : Nat),
      vCompDT cw (if (dur : Int) ≠ prec then vCombine cw previous dur else next)
          (vInstant cw (s.getBest rp)) = false →
      (if (dur : Int) ≠ prec then vCombine cw previous dur else next) ≠
        vInstant cw (s.getBest rp) →
      (foot_path_step4_one d cw best_rp previous dur (s, prec, next) rp).1 = s) := by
  refine ⟨?_, ?_, ?_, ?_⟩
  · intro d cw best_rp bd s rpidx hfa
    unfold foot_path_step3_one
    rw [if_neg (fun hc => Bool.noConfusion (hfa ▸ hc.2 : false = true))]
  · intro d cw best_rp bd s rpidx hne hcomp hk hrp
    simp only [foot_path_step3_one]
    rw [if_pos ⟨hne, hcomp⟩]
    split <;> exact getRetour_setRetour_self (s.setBest rpidx _) s.count rpidx _ hk hrp
  · intro d cw best_rp previous dur s prec next rp hne hin hk hrp
    simp only [foot_path_step4_one]
    rw [if_pos hne, if_pos hin]
    split <;>
      first
        | exact getRetour_setRetour_self (s.setBest rp _) s.count rp _ hk hrp
        | (split <;> exact getRetour_setRetour_self (s.setBest rp _) s.count rp _ hk hrp)
  · intro d cw best_rp previous dur s prec next rp hfa hneq
    simp only [foot_path_step4_one]
    by_cases hbr : best_rp = rp
    · rw [if_neg (fun h => h hbr)]
    · rw [if_pos hbr,
        if_neg (fun hc => hc.elim (fun h => Bool.noConfusion (hfa ▸ h : false = true))
          (fun h => hneq h))]

/-- Concrete engine state for the C6 witness: `best[1]`'s arrival equals the
candidate 100 (tie for step 3) and `best[2]`'s arrival equals the combined
footpath time 60 (tie for step 4). -/
def sW6 : RState :=
  ⟨[[retour_sentinel, retour_sentinel, retour_sentinel]],
    [retour_sentinel, ⟨RType.vj, ⟨100⟩, ⟨100⟩, 0, 0⟩, ⟨RType.vj, ⟨60⟩, ⟨60⟩, 0, 0⟩],
    [], [false, false, false], [false], default, [false], 0⟩

/-- Concrete timetable for the C6 witness. -/
def dW6 : Data :=
  ⟨[⟨[0, 1, 2]⟩], [⟨0, 0, 0, 0⟩, ⟨1, 0, 1, 0⟩, ⟨2, 0, 2, 0⟩], [], [], [], [], [], [], [], [],
    [], []⟩

/-- Witness for C6 at concrete inputs: step 3 leaves the state unchanged both
on an exact tie (candidate 100 against best 100) and on a strictly worse
candidate (200 against 100), installs on strict improvement (50 against 100);
step 4 installs both on strict improvement (combined 50 against best 60) and
on an exact tie (combined 60), and leaves the engine state unchanged on a
strictly worse combined time (110 against 60). -/
theorem C6_foot_path_strictness_witness :
    (vCompDT true ⟨100⟩ (vInstant true (sW6.getBest 1)) = false ∧
      foot_path_step3_one dW6 true 0 ⟨100⟩ sW6 1 = sW6) ∧
    (vCompDT true ⟨200⟩ (vInstant true (sW6.getBest 1)) = false ∧
      foot_path_step3_one dW6 true 0 ⟨200⟩ sW6 1 = sW6) ∧
    (vCompDT true ⟨50⟩ (vInstant true (sW6.getBest 1)) = true ∧
      (foot_path_step3_one dW6 true 0 ⟨50⟩ sW6 1).getRetour sW6.count 1 =
        type_retour.mkConnection ⟨50⟩ ⟨50⟩ 0 RType.connection) ∧
    (vCompDT true (if ((10 : Nat) : Int) ≠ (-1 : Int) then vCombine true ⟨40⟩ 10
          else DateTime.inf) (vInstant true (sW6.getBest 2)) = true ∧
      ((foot_path_step4_one dW6 true 0 ⟨40⟩ 10 (sW6, -1, DateTime.inf) 2).1).getRetour
          sW6.count 2 =
        type_retour.mkConnection
          (if ((10 : Nat) : Int) ≠ (-1 : Int) then vCombine true ⟨40⟩ 10 else DateTime.inf)
          (if ((10 : Nat) : Int) ≠ (-1 : Int) then vCombine true ⟨40⟩ 10 else DateTime.inf)
          0 RType.connection) ∧
    ((if ((10 : Nat) : Int) ≠ (-1 : Int) then vCombine true ⟨50⟩ 10 else DateTime.inf) =
        vInstant true (sW6.getBest 2) ∧
      ((foot_path_step4_one dW6 true 0 ⟨50⟩ 10 (sW6, -1, DateTime.inf) 2).1).getRetour
          sW6.count 2 =
        type_retour.mkConnection
          (if ((10 : Nat) : Int) ≠ (-1 : Int) then vCombine true ⟨50⟩ 10 else DateTime.inf)
          (if ((10 : Nat) : Int) ≠ (-1 : Int) then vCombine true ⟨50⟩ 10 else DateTime.inf)
          0 RType.connection) ∧
    (vCompDT true (if ((10 : Nat) : Int) ≠ (-1 : Int) then vCombine true ⟨100⟩ 10
          else DateTime.inf) (vInstant true (sW6.getBest 2)) = false ∧
      (foot_path_step4_one dW6 true 0 ⟨100⟩ 10 (sW6, -1, DateTime.inf) 2).1 = sW6) :=
  ⟨⟨by decide, C6_foot_path_strictness.1 dW6 true 0 ⟨100⟩ sW6 1 (by decide)⟩,
    ⟨by decide, C6_foot_path_strictness.1 dW6 true 0 ⟨200⟩ sW6 1 (by decide)⟩,
    ⟨by decide,
      C6_foot_path_strictness.2.1 dW6 true 0 ⟨50⟩ sW6 1 (by decide) (by decide) (by decide)
        (by decide)⟩,
    ⟨by decide,
      C6_foot_path_strictness.2.2.1 dW6 true 0 ⟨40⟩ 10 sW6 (-1) DateTime.inf 2 (by decide)
        (Or.inl (by decide)) (by decide) (by decide)⟩,
    ⟨by decide,
      C6_foot_path_strictness.2.2.1 dW6 true 0 ⟨50⟩ 10 sW6 (-1) DateTime.inf 2 (by decide)
        (Or.inr (by decide)) (by decide) (by decide)⟩,
    ⟨by decide,
      C6_foot_path_strictness.2.2.2 dW6 true 0 ⟨100⟩ 10 sW6 (-1) DateTime.inf 2 (by decide)
        (by decide)⟩⟩

/-! ## Claim C10 -/

/-- C10: in every footpath-relaxation pass, the pivot route-point `best_rp`
chosen at a marked stop-point carries a current-round label of type
`VehicleJourney` or `Departure` (first conjunct), and every label the relaxer
installs (steps 3 and 4) is of a connection kind (remaining conjuncts), so a
footpath-derived label is never chained onto another footpath-derived label
within a single pass. -/
theorem C10_pivot_never_footpath :
    (∀ (d : Data) (s : RState) (cw : Bool) (sp : Nat),
      (foot_path_best_rp d s cw sp).2 ≠ invalid_idx →
      (s.getRetour s.count (foot_path_best_rp d s cw sp).2).type = RType.vj ∨
      (s.getRetour s.count (foot_path_best_rp d s cw sp).2).type = RType.depart) ∧
    (∀ (d : Data) (cw : Bool) (best_rp : Nat) (bd : DateTime) (s : RState) (rpidx k i : Nat),
      (foot_path_step3_one d cw best_rp bd s rpidx).getRetour k i = s.getRetour k i ∨
      ∃ r, (foot_path_step3_one d cw best_rp bd s rpidx).getRetour k i = r ∧
        r.type = RType.connection) ∧
    (∀ (d : Data) (cw : Bool) (best_rp : Nat) (previous : DateTime) (dur : Nat)
        (acc : RState × Int × DateTime) (rp k i : Nat),
      ((foot_path_step4_one d cw best_rp previous dur acc rp).1).getRetour k i =
        (acc.1).getRetour k i ∨
      ∃ r, ((foot_path_step4_one d cw best_rp previous dur acc rp).1).getRetour k i = r ∧
        r.type = RType.connection) := by
  refine ⟨?_, ?_, ?_⟩
  · intro d s cw sp
    unfold foot_path_best_rp
    apply foldl_induction _ _ _
      (fun acc : DateTime × Nat => acc.2 ≠ invalid_idx →
        (s.getRetour s.count acc.2).type = RType.vj ∨
        (s.getRetour s.count acc.2).type = RType.depart)
      (fun h => absurd rfl h)
    intro b a hb
    dsimp only
    split
    · next hcond => intro _; exact hcond.1
    · exact hb
  · intro d cw best_rp bd s rpidx k i
    by_cases hcond : rpidx ≠ best_rp ∧ vCompDT cw bd (vInstant cw (s.getBest rpidx)) = true
    · simp only [foot_path_step3_one]
      rw [if_pos hcond]
      split <;>
        · rcases getRetour_setRetour_cases
            (s.setBest rpidx (type_retour.mkConnection bd bd best_rp RType.connection)) s.count
            rpidx (type_retour.mkConnection bd bd best_rp RType.connection) k i with h | h
          · exact Or.inl h
          · exact Or.inr ⟨type_retour.mkConnection bd bd best_rp RType.connection, h, rfl⟩
    · simp only [foot_path_step3_one]
      rw [if_neg hcond]
      exact Or.inl rfl
  · intro d cw best_rp previous dur acc rp k i
    by_cases h0 : best_rp ≠ rp
    · simp only [foot_path_step4_one]
      rw [if_pos h0]
      generalize (if ((dur : Int)) ≠ acc.2.1 then vCombine cw previous dur else acc.2.2) = n
      by_cases h1 : vCompDT cw n (vInstant cw ((acc.1).getBest rp)) = true ∨
          n = vInstant cw ((acc.1).getBest rp)
      · rw [if_pos h1]
        split <;>
          · rcases getRetour_setRetour_cases
              ((acc.1).setBest rp (type_retour.mkConnection n n best_rp RType.connection))
              (acc.1).count rp (type_retour.mkConnection n n best_rp RType.connection) k i
              with h | h
            · exact Or.inl h
            · exact Or.inr ⟨type_retour.mkConnection n n best_rp RType.connection, h, rfl⟩
      · rw [if_neg h1]
        exact Or.inl rfl
    · simp only [foot_path_step4_one]
      rw [if_neg h0]
      exact Or.inl rfl

/-- Concrete timetable for the C10 witness. -/
def dW10 : Data :=
  ⟨[⟨[0, 1]⟩], [⟨0, 0, 0, 0⟩, ⟨1, 0, 1, 0⟩], [], [], [], [], [], [], [], [], [], []⟩

/-- Concrete engine state for the C10 witness: in round 0, route point 1 holds
a `vj` label. -/
def sW10 : RState :=
  ⟨[[retour_sentinel, ⟨RType.vj, ⟨500⟩, ⟨500⟩, 0, 0⟩]],
    [retour_sentinel, retour_sentinel], [], [false, false], [false], default, [false], 0⟩

/-- Witness for C10 at a concrete input: the pivot selected at stop point 0 of
`sW10` is route point 1, which holds a `vj` label in `sW10`'s current round. -/
theorem C10_pivot_never_footpath_witness :
    (foot_path_best_rp dW10 sW10 true 0).2 ≠ invalid_idx ∧
    ((sW10.getRetour sW10.count (foot_path_best_rp dW10 sW10 true 0).2).type = RType.vj ∨
      (sW10.getRetour sW10.count (foot_path_best_rp dW10 sW10 true 0).2).type = RType.depart) :=
  ⟨by decide, C10_pivot_never_footpath.1 dW10 sW10 true 0 (by decide)⟩

/-! ## Claim C7 -/

theorem getD_set_self {α : Type} (l : List α) (i : Nat) (x dflt : α) (h : i < l.length) :
    (l.set i x).getD i dflt = x := by
  simp [List.getD_eq_getElem?_getD, List.getElem?_set_self, h]

theorem getD_set_ne {α : Type} (l : List α) (i j : Nat) (x dflt : α) (h : i ≠ j) :
    (l.set i x).getD j dflt = l.getD j dflt := by
  simp [List.getD_eq_getElem?_getD, List.getElem?_set_ne, h]

/-- The bit `i` after folding `set_routes_valides`'s loop body over a list of
routes: the bit was already set, or some route with `idx = i` passes both the
forbidden filter and the circulation check. -/
theorem routes_valides_fold_spec (d : Data) (date : Nat) (forbidden : List (String × String)) :
    ∀ (rs : List Route) (acc : List Bool) (i : Nat), i < acc.length →
      ((rs.foldl (fun acc route =>
          if forbidden_matches d route forbidden = false ∧
              route_has_valid_vj d route date = true
          then acc.set route.idx true else acc) acc).getD i false =
        (acc.getD i false ||
          rs.any (fun route => route.idx == i &&
            (!forbidden_matches d route forbidden && route_has_valid_vj d route date)))) := by
  intro rs
  induction rs with
  | nil => intro acc i h; simp
  | cons r t ih =>
    intro acc i h
    simp only [List.foldl_cons, List.any_cons]
    by_cases hc : forbidden_matches d r forbidden = false ∧ route_has_valid_vj d r date = true
    · rw [if_pos hc, ih (acc.set r.idx true) i (by simpa using h)]
      by_cases hri : r.idx = i
      · rw [hri, getD_set_self acc i true false h]
        simp [hc.1, hc.2]
      · rw [getD_set_ne acc r.idx i true false hri]
        have hbne : (r.idx == i) = false := by simpa using hri
        simp [hbne]
    · rw [if_neg hc, ih acc i h]
      have hfalse : (!forbidden_matches d r forbidden && route_has_valid_vj d r date) = false := by
        by_cases hf : forbidden_matches d r forbidden = false
        · have hv : route_has_valid_vj d r date = false := by
            rcases Bool.eq_false_or_eq_true (route_has_valid_vj d r date) with hv | hv
            · exact absurd ⟨hf, hv⟩ hc
            · exact hv
          simp [hv]
        · have : forbidden_matches d r forbidden = true := by
            rcases Bool.eq_false_or_eq_true (forbidden_matches d r forbidden) with hf2 | hf2
            · exact hf2
            · exact absurd hf2 hf
          simp [this]
      simp [hfalse]

/-- C7: `set_routes_valides` marks a route valid iff the route is not matched
by any forbidden (kind, code) pair — kind `line` against the route's line
external code, `route` against the route's external code, `mode` against the
mode-type's external code (see `forbidden_matches`) — and at least one of the
route's vehicle journeys has a validity pattern that fires around the query
date (`check2`, see `route_has_valid_vj`).  Stated for well-formed timetables
whose routes carry their own position as `idx`. -/
theorem C7_set_routes_valides_iff (d : Data) (date : Nat) (forbidden : List (String × String))
    (i : Nat) (hlen : i < d.routes.length)
    (hidx : ∀ j, j < d.routes.length → (d.routes.getD j default).idx = j) :
    ((RAPTOR.set_routes_valides d date forbidden).getD i false = true ↔
      (forbidden_matches d (d.routes.getD i default) forbidden = false ∧
        route_has_valid_vj d (d.routes.getD i default) date = true)) := by
  unfold RAPTOR.set_routes_valides
  rw [routes_valides_fold_spec d date forbidden d.routes (List.replicate d.routes.length false) i
    (by simpa using hlen)]
  have hrepl : (List.replicate d.routes.length false).getD i false = false := by
    rw [List.getD_eq_getElem?_getD, List.getElem?_replicate]
    simp [hlen]
  rw [hrepl, Bool.false_or]
  constructor
  · intro hany
    rcases List.any_eq_true.mp hany with ⟨route, hmem, hp⟩
    rcases Bool.and_eq_true_iff.mp hp with ⟨hbeq, hrest⟩
    rcases Bool.and_eq_true_iff.mp hrest with ⟨hnf, hv⟩
    have hri : route.idx = i := by simpa using hbeq
    rcases List.getElem_of_mem hmem with ⟨j, hj, hget⟩
    have hidxj : d.routes.getD j default = route := by
      rw [List.getD_eq_getElem?_getD, List.getElem?_eq_getElem hj]
      simpa using hget
    have hji : j = i := by
      have hj2 := hidx j hj
      rw [hidxj] at hj2
      rw [hj2] at hri
      exact hri
    have hroute : d.routes.getD i default = route := by
      rw [← hji]
      exact hidxj
    rw [hroute]
    refine ⟨?_, hv⟩
    rcases Bool.eq_false_or_eq_true (forbidden_matches d route forbidden) with hf | hf
    · exact absurd (by simp [hf]) (by simp [hnf] : ¬(!forbidden_matches d route forbidden) = false)
    · exact hf
  · intro hcond
    have hmem : d.routes.getD i default ∈ d.routes := by
      rw [List.getD_eq_getElem?_getD, List.getElem?_eq_getElem hlen]
      exact List.getElem_mem hlen
    have hp : ((d.routes.getD i default).idx == i &&
        (!forbidden_matches d (d.routes.getD i default) forbidden &&
          route_has_valid_vj d (d.routes.getD i default) date)) = true := by
      rw [hidx i hlen, hcond.1, hcond.2]
      simp
    exact List.any_eq_true.mpr ⟨d.routes.getD i default, hmem, hp⟩

/-- Concrete timetable for the C7 witness: two routes on two lines; route 0 on
line `L1` (forbidden), route 1 on line `L2` with a circulating vehicle
journey. -/
def dW7 : Data :=
  ⟨[], [], [⟨0, 0, 0, "R1", [0], []⟩, ⟨1, 1, 0, "R2", [1], []⟩],
    [⟨0, []⟩, ⟨0, []⟩], [⟨fun _ => true⟩], [⟨"L1"⟩, ⟨"L2"⟩], [⟨"Bus"⟩], [], [], [], [], []⟩

/-- Witness for C7 at a concrete input: with `forbidden = [("line", "L1")]`,
route 1 (line `L2`) is valid iff its filter and circulation checks pass. -/
theorem C7_set_routes_valides_iff_witness :
    ((1 : Nat) < dW7.routes.length ∧
      ∀ j, j < dW7.routes.length → (dW7.routes.getD j default).idx = j) ∧
    ((RAPTOR.set_routes_valides dW7 0 [("line", "L1")]).getD 1 false = true ↔
      (forbidden_matches dW7 (dW7.routes.getD 1 default) [("line", "L1")] = false ∧
        route_has_valid_vj dW7 (dW7.routes.getD 1 default) 0 = true)) :=
  ⟨⟨by decide, by decide⟩,
    C7_set_routes_valides_iff dW7 0 [("line", "L1")] 1 (by decide) (by decide)⟩

/-! ## Claim C4 -/

/-- Concrete timetable for C4: a single stop point with a single route point
on a valid route. -/
def dC4 : Data :=
  ⟨[⟨[0]⟩], [⟨0, 0, 0, 0⟩], [⟨0, 0, 0, "R0", [], [0]⟩], [], [], [⟨"L0"⟩], [⟨"M0"⟩], [], [],
    [(0, 0)], [], []⟩

/-- A fresh engine state for `dC4`, with the route marked valid. -/
def s0C4 : RState := ⟨[], [], [], [false], [false], default, [true], 0⟩

/-- Engine state for the `makePathes` selection steps of C4: the round-1 label
at route point 0 has arrival 1000 / departure 1200, and so does `best[0]`. -/
def sC4 : RState :=
  ⟨[[retour_sentinel], [⟨RType.vj, ⟨1000⟩, ⟨1200⟩, 0, 0⟩]],
    [⟨RType.vj, ⟨1000⟩, ⟨1200⟩, 0, 0⟩], [], [false], [false], default, [true], 1⟩

/-- C4 evidence: destination registration in `clear_and_init` and the reverse
selection in `makePathesreverse` convert egress meters with `/ 1.38` (first two
conjuncts), but the forward selection loop of `makePathes` updates its bound
`dt` by adding the *raw* meters to `best[dest].arrival` (last conjunct): at a
destination 138 m away whose label passes the (converted, `+100 s`) acceptance
test, the code sets `dt = 1000 + 138`, not `1000 + 100` as the claim states. -/
theorem C4_raw_meters_in_makePathes_dt_update :
    ((RAPTOR.clear_and_init dC4 s0C4 [] [(0, (138 : ℚ))] DateTime.inf true true).b_dest.dests =
        [(0, (138 : ℚ) / (1.38 : ℚ))] ∧
      (138 : ℚ) / (1.38 : ℚ) = 100) ∧
    (makePathesreverse_select_step sC4 1 (0, (138 : ℚ)) ((0 : ℚ), invalid_idx) 0 =
      (((1200 : Nat) : ℚ) - (138 : ℚ) / (1.38 : ℚ), 0)) ∧
    (makePathes_select_step sC4 1 (0, (138 : ℚ)) ((2000 : ℚ), 2147483647) 0 =
        (((1000 : Nat) : ℚ) + 138, 0) ∧
      (((1000 : Nat) : ℚ) + 138 ≠ ((1000 : Nat) : ℚ) + (138 : ℚ) / (1.38 : ℚ))) := by
  have hret : sC4.getRetour 1 0 = ⟨RType.vj, ⟨1000⟩, ⟨1200⟩, 0, 0⟩ := by decide
  have hbest : sC4.getBest 0 = ⟨RType.vj, ⟨1000⟩, ⟨1200⟩, 0, 0⟩ := by decide
  refine ⟨⟨?_, by norm_num⟩, ?_, ⟨?_, by norm_num⟩⟩
  · rfl
  · simp only [makePathesreverse_select_step, hret]
    rw [if_pos (by decide), if_pos (by norm_num)]
  · simp only [makePathes_select_step, hret, hbest]
    rw [if_pos ⟨by decide, by norm_num⟩]

/-! ## Claim C9 -/

theorem countP_eq_range_countP {α : Type} (p : α → Bool) (dflt : α) :
    ∀ l : List α, l.countP p = (List.range l.length).countP (fun i => p (l.getD i dflt)) := by
  intro l
  induction l with
  | nil => simp
  | cons a t ih =>
    rw [List.countP_cons, List.length_cons, List.range_succ_eq_map, List.countP_cons,
      List.countP_map, ih]
    have hcomp : (List.countP ((fun i => p ((a :: t).getD i dflt)) ∘ Nat.succ)
        (List.range t.length)) =
        List.countP (fun i => p (t.getD i dflt)) (List.range t.length) :=
      List.countP_congr (fun i _ => Iff.rfl)
    rw [hcomp]
    rfl

/-- The `nb_changes` loop of `makePath` (raptor.cpp:900-906) counts exactly the
walking items strictly between the first and the last item. -/
theorem nb_changes_eq_middle_count (items : List PathItem) :
    (if 2 < items.length then
        (List.range (items.length - 2)).countP
          (fun i => (items.getD (i + 1) default).type == ItemType.walking)
      else 0) =
    ((items.drop 1).dropLast).countP (fun it => it.type == ItemType.walking) := by
  have hlen : ((items.drop 1).dropLast).length = items.length - 1 - 1 := by
    simp
  by_cases h : 2 < items.length
  · rw [if_pos h]
    rw [countP_eq_range_countP (fun it => it.type == ItemType.walking) default
      ((items.drop 1).dropLast)]
    rw [hlen, show items.length - 1 - 1 = items.length - 2 by omega]
    apply List.countP_congr
    intro i hi
    have hi' : i < items.length - 2 := List.mem_range.mp hi
    have hgd : ((items.drop 1).dropLast).getD i default = items.getD (i + 1) default := by
      have h1 : i < ((items.drop 1).dropLast).length := by omega
      have h2 : i + 1 < items.length := by omega
      rw [List.getD_eq_getElem?_getD, List.getD_eq_getElem?_getD,
        List.getElem?_eq_getElem h1, List.getElem?_eq_getElem h2]
      rw [List.getElem_dropLast, List.getElem_drop]
      have : 1 + i = i + 1 := by omega
      simp only [this]
    rw [hgd]
  · rw [if_neg h]
    have : ((items.drop 1).dropLast).length = 0 := by omega
    rw [List.eq_nil_of_length_eq_zero this]
    rfl

/-- The metadata block of `makePath` satisfies the claimed equations for any
item list. -/
theorem makePathFinalize_metadata (d : Data) (s : RState) (items : List PathItem) :
    ((makePathFinalize d s items).items ≠ [] →
      (makePathFinalize d s items).duration =
        (((makePathFinalize d s items).items.getLastD default).arrival.val : Int) -
          (((makePathFinalize d s items).items.headD default).departure.val : Int)) ∧
    ((makePathFinalize d s items).items = [] → (makePathFinalize d s items).duration = 0) ∧
    (makePathFinalize d s items).nb_changes =
      (((makePathFinalize d s items).items.drop 1).dropLast).countP
        (fun it => it.type == ItemType.walking) ∧
    ((makePathFinalize d s items).items.length ≤ 2 → (makePathFinalize d s items).nb_changes = 0) := by
  refine ⟨?_, ?_, ?_, ?_⟩
  · intro hne
    have hne' : items ≠ [] := hne
    show (if 0 < items.length then
        ((items.getLastD default).arrival.val : Int) - ((items.headD default).departure.val : Int)
      else 0) = _
    rw [if_pos (by simpa [List.length_pos] using hne')]
    rfl
  · intro he
    have he' : items = [] := he
    subst he'
    rfl
  · exact nb_changes_eq_middle_count items
  · intro hle
    have hle' : items.length ≤ 2 := hle
    show (if 2 < items.length then
        (List.range (items.length - 2)).countP
          (fun i => (items.getD (i + 1) default).type == ItemType.walking)
      else 0) = 0
    rw [if_neg (by omega)]

/-- C9: for every path produced by `makePath`, `duration` equals the last
item's arrival minus the first item's departure (and `0` for an empty item
list), and `nb_changes` equals the number of items of type `walking` strictly
between the first and the last item — in particular `0` whenever the path has
at most two items. -/
theorem C9_makePath_metadata (d : Data) (s : RState) (fuel fuelI dest countb : Nat) (rev : Bool)
    (path : Path) (h : RAPTOR.makePath d s fuel fuelI dest countb rev = some path) :
    (path.items ≠ [] →
      path.duration = ((path.items.getLastD default).arrival.val : Int) -
        ((path.items.headD default).departure.val : Int)) ∧
    (path.items = [] → path.duration = 0) ∧
    path.nb_changes =
      ((path.items.drop 1).dropLast).countP (fun it => it.type == ItemType.walking) ∧
    (path.items.length ≤ 2 → path.nb_changes = 0) := by
  unfold RAPTOR.makePath at h
  cases hloop : makePathLoop d s rev fuelI fuel countb dest
      (if rev = false then (s.getRetour countb dest).arrival
        else (s.getRetour countb dest).departure) [] with
  | none =>
    simp only [hloop] at h
    exact Option.noConfusion h
  | some items =>
    simp only [hloop, Option.some.injEq] at h
    subst h
    exact makePathFinalize_metadata d s _

/-- Concrete timetable for the C9 witness: two route points on two stop
points. -/
def dW9 : Data :=
  ⟨[⟨[0]⟩, ⟨[1]⟩], [⟨0, 0, 0, 0⟩, ⟨1, 0, 1, 1⟩], [], [], [], [], [], [], [], [], [], []⟩

/-- Concrete engine state for the C9 witness: at round 1, route point 1 holds a
walking label back to route point 0, which holds a `depart` label. -/
def sW9 : RState :=
  ⟨[[retour_sentinel, retour_sentinel],
    [⟨RType.depart, ⟨28800⟩, ⟨28800⟩, invalid_idx, invalid_idx⟩,
      ⟨RType.connection, ⟨30720⟩, ⟨30720⟩, invalid_idx, 0⟩]],
    [retour_sentinel, retour_sentinel], [], [false, false], [false, false], default, [false], 1⟩

/-- The path reconstructed in the C9 witness. -/
def pW9 : Path := (RAPTOR.makePath dW9 sW9 3 3 1 1 false).getD default

/-- Witness for C9 at a concrete input. -/
theorem C9_makePath_metadata_witness :
    RAPTOR.makePath dW9 sW9 3 3 1 1 false = some pW9 ∧
    ((pW9.items ≠ [] →
      pW9.duration = ((pW9.items.getLastD default).arrival.val : Int) -
        ((pW9.items.headD default).departure.val : Int)) ∧
    (pW9.items = [] → pW9.duration = 0) ∧
    pW9.nb_changes =
      ((pW9.items.drop 1).dropLast).countP (fun it => it.type == ItemType.walking) ∧
    (pW9.items.length ≤ 2 → pW9.nb_changes = 0)) :=
  ⟨by decide, C9_makePath_metadata dW9 sW9 3 3 1 1 false pW9 (by decide)⟩

/-! ## Claim C8 -/

/-- C8: for every query to the single-datetime entry points `compute_all` and
`compute_reverse_all`, if the destination tracker's best label is still of type
`Uninitialized` after the first (forward, resp. reverse) pass, the function
returns the empty path list — the reverse-pass/reconstruction phase is never
entered. -/
theorem C8_no_journey_empty_result :
    (∀ (d : Data) (fuel fuelP fuelI : Nat) (departs destinations : List (Nat × ℚ))
        (dt borne : DateTime) (forbidden : List (String × String)) (s : RState),
      RAPTOR.compute_all_first_phase d fuel departs destinations dt borne forbidden = some s →
      s.b_dest.best_now.type = RType.uninitialized →
      RAPTOR.compute_all d fuel fuelP fuelI departs destinations dt borne forbidden = some []) ∧
    (∀ (d : Data) (fuel fuelP fuelI : Nat) (departs destinations : List (Nat × ℚ))
        (dt borne : DateTime) (forbidden : List (String × String)) (s : RState),
      RAPTOR.compute_reverse_all_first_phase d fuel departs destinations dt borne forbidden =
        some s →
      s.b_dest.best_now.type = RType.uninitialized →
      RAPTOR.compute_reverse_all d fuel fuelP fuelI departs destinations dt borne forbidden =
        some []) := by
  constructor
  · intro d fuel fuelP fuelI departs destinations dt borne forbidden s h1 h2
    unfold RAPTOR.compute_all
    rw [h1]
    simp only [h2, if_pos]
  · intro d fuel fuelP fuelI departs destinations dt borne forbidden s h1 h2
    unfold RAPTOR.compute_reverse_all
    rw [h1]
    simp only [h2, if_pos]

/-- The empty timetable used by the C8 witness. -/
def dW8 : Data := ⟨[], [], [], [], [], [], [], [], [], [], [], []⟩

/-- The state after the forward pass of `compute_all` on the empty timetable. -/
def sW8 : RState :=
  (RAPTOR.compute_all_first_phase dW8 1 [] [] ⟨28800⟩ DateTime.inf []).getD (initialState dW8)

/-- The state after the reverse pass of `compute_reverse_all` on the empty
timetable. -/
def sW8r : RState :=
  (RAPTOR.compute_reverse_all_first_phase dW8 1 [] [] ⟨28800⟩ DateTime.inf []).getD
    (initialState dW8)

/-- Witness for C8 at a concrete input: on the empty timetable both entry
points find no journey and return the empty path list. -/
theorem C8_no_journey_empty_result_witness :
    (RAPTOR.compute_all_first_phase dW8 1 [] [] ⟨28800⟩ DateTime.inf [] = some sW8 ∧
      sW8.b_dest.best_now.type = RType.uninitialized ∧
      RAPTOR.compute_all dW8 1 1 1 [] [] ⟨28800⟩ DateTime.inf [] = some []) ∧
    (RAPTOR.compute_reverse_all_first_phase dW8 1 [] [] ⟨28800⟩ DateTime.inf [] = some sW8r ∧
      sW8r.b_dest.best_now.type = RType.uninitialized ∧
      RAPTOR.compute_reverse_all dW8 1 1 1 [] [] ⟨28800⟩ DateTime.inf [] = some []) :=
  ⟨⟨by decide, by decide,
      C8_no_journey_empty_result.1 dW8 1 1 1 [] [] ⟨28800⟩ DateTime.inf [] sW8 (by decide)
        (by decide)⟩,
    ⟨by decide, by decide,
      C8_no_journey_empty_result.2 dW8 1 1 1 [] [] ⟨28800⟩ DateTime.inf [] sW8r (by decide)
        (by decide)⟩⟩

/-! ## Claim C2 — termination measure

In the forward direction every `best[rp]` write performed during a round
strictly decreases or preserves the (finite) sum of the `best` arrivals; a
round whose scan returned `end = false` strictly decreases it. -/

/-- The termination measure: the sum of all `best` arrivals. -/
def mu (s : RState) : Nat := (s.best.map (fun r => r.arrival.val)).sum

/-- Index well-formedness: every route point's `idx` (and the default used for
out-of-range accesses) indexes into `best`. -/
def WFidx (d : Data) (n : Nat) : Prop :=
  0 < n ∧ ∀ rp ∈ d.route_points, rp.idx < n

theorem getD_mem_or_default {α : Type} (l : List α) (i : Nat) (dflt : α) :
    l.getD i dflt ∈ l ∨ l.getD i dflt = dflt := by
  by_cases h : i < l.length
  · left
    rw [List.getD_eq_getElem?_getD, List.getElem?_eq_getElem h]
    exact List.getElem_mem h
  · right
    rw [List.getD_eq_getElem?_getD, List.getElem?_eq_none (by omega)]
    rfl

theorem WFidx_getD_lt (d : Data) (n : Nat) (h : WFidx d n) (i : Nat) :
    (d.route_points.getD i default).idx < n := by
  rcases getD_mem_or_default d.route_points i default with hm | hd
  · exact h.2 _ hm
  · rw [hd]
    exact h.1

theorem sum_map_set {α : Type} (f : α → Nat) :
    ∀ (l : List α) (i : Nat) (x dflt : α), i < l.length →
      ((l.set i x).map f).sum + f (l.getD i dflt) = (l.map f).sum + f x := by
  intro l
  induction l with
  | nil => intro i x dflt h; simp at h
  | cons a t ih =>
    intro i x dflt h
    cases i with
    | zero => simp [List.getD_cons_zero]; omega
    | succ n =>
      have hrec := ih n x dflt (by simpa using h)
      simp only [List.set_cons_succ, List.map_cons, List.sum_cons, List.getD_cons_succ]
      omega

theorem mu_setBest_le (s : RState) (rp : Nat) (r : type_retour)
    (h : r.arrival.val ≤ (s.getBest rp).arrival.val) : mu (s.setBest rp r) ≤ mu s := by
  by_cases hlen : rp < s.best.length
  · have hsum := sum_map_set (fun t => t.arrival.val) s.best rp r retour_sentinel hlen
    dsimp only at hsum
    have h' : r.arrival.val ≤ (s.best.getD rp retour_sentinel).arrival.val := h
    show ((s.best.set rp r).map (fun t => t.arrival.val)).sum ≤
      (s.best.map (fun t => t.arrival.val)).sum
    omega
  · show ((s.best.set rp r).map (fun t => t.arrival.val)).sum ≤
      (s.best.map (fun t => t.arrival.val)).sum
    rw [List.set_eq_of_length_le (Nat.le_of_not_lt hlen)]

theorem mu_setBest_lt (s : RState) (rp : Nat) (r : type_retour) (hlen : rp < s.best.length)
    (h : r.arrival.val < (s.getBest rp).arrival.val) : mu (s.setBest rp r) < mu s := by
  have hsum := sum_map_set (fun t => t.arrival.val) s.best rp r retour_sentinel hlen
  dsimp only at hsum
  have h' : r.arrival.val < (s.best.getD rp retour_sentinel).arrival.val := h
  show ((s.best.set rp r).map (fun t => t.arrival.val)).sum <
    (s.best.map (fun t => t.arrival.val)).sum
  omega

theorem length_install (s : RState) (k rp : Nat) (r : type_retour) :
    ((s.setRetour k rp r).setBest rp r).best.length = s.best.length := by
  simp [RState.setRetour, RState.setBest]

theorem mu_install_le (s : RState) (k rp : Nat) (r : type_retour)
    (h : r.arrival.val ≤ (s.getBest rp).arrival.val) :
    mu ((s.setRetour k rp r).setBest rp r) ≤ mu s :=
  mu_setBest_le (s.setRetour k rp r) rp r h

theorem mu_install_lt (s : RState) (k rp : Nat) (r : type_retour) (hlen : rp < s.best.length)
    (h : r.arrival.val < (s.getBest rp).arrival.val) :
    mu ((s.setRetour k rp r).setBest rp r) < mu s :=
  mu_setBest_lt (s.setRetour k rp r) rp r hlen h

/-- `store_better` (forward) does not increase the measure, strictly decreases
it when it returns `false`, and preserves the `best` length — provided the
bound it was given does not exceed the current `best[rpid]` (which the round
loop guarantees). -/
theorem store_better_mu (d : Data) (s : RState) (rpid : Nat) (working : DateTime)
    (bound : type_retour) (st : StopTime) (emb : Nat)
    (hb : bound.arrival.val ≤ (s.getBest rpid).arrival.val) (hrp : rpid < s.best.length) :
    mu (raptor_visitor.store_better d s rpid working bound st emb).1 ≤ mu s ∧
    ((raptor_visitor.store_better d s rpid working bound st emb).2.2 = false →
      mu (raptor_visitor.store_better d s rpid working bound st emb).1 < mu s) ∧
    (raptor_visitor.store_better d s rpid working bound st emb).1.best.length =
      s.best.length := by
  simp only [raptor_visitor.store_better]
  by_cases h1 : (working.update st.arrival_time).val < bound.arrival.val ∧
      st.drop_off_allowed = true
  · rw [if_pos h1]
    have hlt : mu ((s.setRetour s.count rpid
        (type_retour.ofStopTime st (working.update st.arrival_time) emb true)).setBest rpid
        (type_retour.ofStopTime st (working.update st.arrival_time) emb true)) < mu s :=
      mu_install_lt s s.count rpid _ hrp (Nat.lt_of_lt_of_le h1.1 hb)
    have hlen2 := length_install s s.count rpid
      (type_retour.ofStopTime st (working.update st.arrival_time) emb true)
    split
    · exact ⟨Nat.le_of_lt hlt, fun _ => hlt, hlen2⟩
    · exact ⟨Nat.le_of_lt hlt, fun _ => hlt, by simpa using hlen2⟩
  · rw [if_neg h1]
    by_cases h3 : working.update st.arrival_time = bound.arrival ∧
        (s.getRetour (s.count - 1) rpid).type = RType.uninitialized
    · rw [if_pos h3]
      split
      · have hle : mu (({ s with b_dest := (s.b_dest.ajouter_best rpid
            (type_retour.ofStopTime st (working.update st.arrival_time) emb true) s.count).1
            }).setRetour s.count rpid
            (type_retour.ofStopTime st (working.update st.arrival_time) emb true) |>.setBest
            rpid (type_retour.ofStopTime st (working.update st.arrival_time) emb true)) ≤
            mu s := by
          refine mu_install_le _ s.count rpid _ ?_
          show (working.update st.arrival_time).val ≤ (s.getBest rpid).arrival.val
          rw [show (working.update st.arrival_time).val = bound.arrival.val by rw [h3.1]]
          exact hb
        refine ⟨hle, fun hcontra => absurd hcontra (by simp), ?_⟩
        exact length_install { s with b_dest := _ } s.count rpid _
      · exact ⟨Nat.le_refl _, fun hcontra => absurd hcontra (by simp), rfl⟩
    · rw [if_neg h3]
      exact ⟨Nat.le_refl _, fun hcontra => absurd hcontra (by simp), rfl⟩

/-- Fold a measure-nonincreasing, length-preserving step. -/
theorem foldl_mu_le {α β : Type} (proj : β → RState) (f : β → α → β) (l : List α)
    (hstep : ∀ t a, mu (proj (f t a)) ≤ mu (proj t) ∧
      (proj (f t a)).best.length = (proj t).best.length) :
    ∀ init : β, mu (proj (l.foldl f init)) ≤ mu (proj init) ∧
      (proj (l.foldl f init)).best.length = (proj init).best.length := by
  induction l with
  | nil => intro init; exact ⟨Nat.le_refl _, rfl⟩
  | cons a t ih =>
    intro init
    rcases ih (f init a) with ⟨h1, h2⟩
    rcases hstep init a with ⟨h3, h4⟩
    exact ⟨Nat.le_trans h1 h3, h2.trans h4⟩

theorem foot_path_step3_one_mu (d : Data) (best_rp : Nat) (bd : DateTime) (s : RState)
    (rpidx : Nat) :
    mu (foot_path_step3_one d true best_rp bd s rpidx) ≤ mu s ∧
    (foot_path_step3_one d true best_rp bd s rpidx).best.length = s.best.length := by
  simp only [foot_path_step3_one]
  split
  · next hcond =>
    have hlt : bd.val < (s.getBest rpidx).arrival.val := of_decide_eq_true hcond.2
    have hmu : mu ((s.setBest rpidx
        (type_retour.mkConnection bd bd best_rp RType.connection)).setRetour s.count rpidx
        (type_retour.mkConnection bd bd best_rp RType.connection)) ≤ mu s :=
      mu_setBest_le s rpidx _ (Nat.le_of_lt hlt)
    have hlen : ((s.setBest rpidx
        (type_retour.mkConnection bd bd best_rp RType.connection)).setRetour s.count rpidx
        (type_retour.mkConnection bd bd best_rp RType.connection)).best.length =
        s.best.length := by
      simp [RState.setBest, RState.setRetour]
    split
    · exact ⟨hmu, hlen⟩
    · exact ⟨hmu, hlen⟩
  · exact ⟨Nat.le_refl _, rfl⟩

theorem foot_path_step4_one_mu (d : Data) (best_rp : Nat) (previous : DateTime) (dur : Nat)
    (acc : RState × Int × DateTime) (rp : Nat) :
    mu (foot_path_step4_one d true best_rp previous dur acc rp).1 ≤ mu acc.1 ∧
    (foot_path_step4_one d true best_rp previous dur acc rp).1.best.length =
      acc.1.best.length := by
  simp only [foot_path_step4_one]
  by_cases h0 : best_rp ≠ rp
  · rw [if_pos h0]
    generalize (if ((dur : Int)) ≠ acc.2.1 then vCombine true previous dur else acc.2.2) = n
    by_cases h1 : vCompDT true n (vInstant true ((acc.1).getBest rp)) = true ∨
        n = vInstant true ((acc.1).getBest rp)
    · rw [if_pos h1]
      have hle : n.val ≤ ((acc.1).getBest rp).arrival.val := by
        rcases h1 with h | h
        · exact Nat.le_of_lt (of_decide_eq_true h)
        · exact Nat.le_of_eq (congrArg DateTime.val h)
      have hmu : mu (((acc.1).setBest rp
          (type_retour.mkConnection n n best_rp RType.connection)).setRetour (acc.1).count rp
          (type_retour.mkConnection n n best_rp RType.connection)) ≤ mu acc.1 :=
        mu_setBest_le acc.1 rp _ hle
      have hlen : (((acc.1).setBest rp
          (type_retour.mkConnection n n best_rp RType.connection)).setRetour (acc.1).count rp
          (type_retour.mkConnection n n best_rp RType.connection)).best.length =
          (acc.1).best.length := by
        simp [RState.setBest, RState.setRetour]
      split
      · exact ⟨hmu, hlen⟩
      · exact ⟨hmu, hlen⟩
    · rw [if_neg h1]
      exact ⟨Nat.le_refl _, rfl⟩
  · rw [if_neg h0]
    exact ⟨Nat.le_refl _, rfl⟩

theorem foot_path_process_sp_mu (d : Data) (acc : RState × Int × Int) (sp : Nat) :
    mu (foot_path_process_sp d true acc sp).1 ≤ mu acc.1 ∧
    (foot_path_process_sp d true acc sp).1.best.length = acc.1.best.length := by
  simp only [foot_path_process_sp]
  split
  · have h3 := foldl_mu_le (fun s : RState => s)
      (foot_path_step3_one d true (foot_path_best_rp d acc.1 true sp).2
        (vCombine true (foot_path_best_rp d acc.1 true sp).1 120))
      (d.stop_points.getD sp default).route_point_list
      (fun t a => foot_path_step3_one_mu d _ _ t a) acc.1
    set s3 := (d.stop_points.getD sp default).route_point_list.foldl
      (foot_path_step3_one d true (foot_path_best_rp d acc.1 true sp).2
        (vCombine true (foot_path_best_rp d acc.1 true sp).1 120)) acc.1 with hs3
    have h4 := foldl_mu_le (fun st4 : RState × Int × DateTime => st4.1)
      (fun st4 j =>
        (d.stop_points.getD
          (d.foot_path.getD ((acc.2.1 + ((d.footpath_index.getD sp (0, 0)).1 - acc.2.2)) +
            (j : Int)).toNat default).destination_stop_point_idx
          default).route_point_list.foldl
          (foot_path_step4_one d true (foot_path_best_rp d acc.1 true sp).2
            (vInstant true (s3.getRetour s3.count (foot_path_best_rp d acc.1 true sp).2))
            (d.foot_path.getD ((acc.2.1 + ((d.footpath_index.getD sp (0, 0)).1 - acc.2.2)) +
              (j : Int)).toNat default).duration) st4)
      (List.range (d.footpath_index.getD sp (0, 0)).2)
      (fun t a => foldl_mu_le (fun st4 : RState × Int × DateTime => st4.1) _ _
        (fun t2 a2 => foot_path_step4_one_mu d _ _ _ t2 a2) t)
      (s3, (-1 : Int), vWorst true)
    exact ⟨Nat.le_trans h4.1 h3.1, h4.2.trans h3.2⟩
  · exact ⟨Nat.le_refl _, rfl⟩

theorem foot_path_mu (d : Data) (s : RState) :
    mu (RAPTOR.foot_path d true s) ≤ mu s ∧
    (RAPTOR.foot_path d true s).best.length = s.best.length := by
  unfold RAPTOR.foot_path
  exact foldl_mu_le (fun acc : RState × Int × Int => acc.1) (foot_path_process_sp d true)
    (bitsetIndices s.marked_sp) (fun t a => foot_path_process_sp_mu d t a) (s, 0, 0)

theorem route_path_connections_forward_mu (d : Data) (s : RState) :
    mu (RAPTOR.route_path_connections_forward d s) ≤ mu s ∧
    (RAPTOR.route_path_connections_forward d s).best.length = s.best.length := by
  simp only [RAPTOR.route_path_connections_forward]
  have hinner : ∀ (acc : RState × List Nat) (pr : Nat × RoutePointConnection) (rp : Nat),
      mu ((fun (acc : RState × List Nat) pr =>
        let s := acc.1
        let rpc := pr.2
        let dt : DateTime := ⟨(s.getRetour s.count rp).arrival.val + rpc.length⟩
        if (s.getRetour s.count rp).type = RType.vj ∧
            dt.val < (s.getBest rpc.destination_route_point_idx).arrival.val then
          let r := type_retour.mkConnection dt dt rp
            (if rpc.connection_kind = ConnectionKind.extension then RType.connection_extension
             else RType.connection_guarantee)
          (((s.setRetour s.count rpc.destination_route_point_idx r).setBest
              rpc.destination_route_point_idx r),
            acc.2 ++ [rpc.destination_route_point_idx])
        else acc) acc pr).1 ≤ mu acc.1 ∧
      ((fun (acc : RState × List Nat) pr =>
        let s := acc.1
        let rpc := pr.2
        let dt : DateTime := ⟨(s.getRetour s.count rp).arrival.val + rpc.length⟩
        if (s.getRetour s.count rp).type = RType.vj ∧
            dt.val < (s.getBest rpc.destination_route_point_idx).arrival.val then
          let r := type_retour.mkConnection dt dt rp
            (if rpc.connection_kind = ConnectionKind.extension then RType.connection_extension
             else RType.connection_guarantee)
          (((s.setRetour s.count rpc.destination_route_point_idx r).setBest
              rpc.destination_route_point_idx r),
            acc.2 ++ [rpc.destination_route_point_idx])
        else acc) acc pr).1.best.length = acc.1.best.length := by
    intro acc pr rp
    dsimp only
    split
    · next hcond =>
      constructor
      · exact mu_install_le acc.1 acc.1.count pr.2.destination_route_point_idx _
          (Nat.le_of_lt hcond.2)
      · exact length_install acc.1 acc.1.count pr.2.destination_route_point_idx _
    · exact ⟨Nat.le_refl _, rfl⟩
  have hfirst := foldl_mu_le (fun acc : RState × List Nat => acc.1)
    (fun (acc : RState × List Nat) (rp : Nat) =>
      (d.footpath_rp_forward.filter (fun p => p.1 == rp)).foldl
        (fun (acc : RState × List Nat) pr =>
          let s := acc.1
          let rpc := pr.2
          let dt : DateTime := ⟨(s.getRetour s.count rp).arrival.val + rpc.length⟩
          if (s.getRetour s.count rp).type = RType.vj ∧
              dt.val < (s.getBest rpc.destination_route_point_idx).arrival.val then
            let r := type_retour.mkConnection dt dt rp
              (if rpc.connection_kind = ConnectionKind.extension then RType.connection_extension
               else RType.connection_guarantee)
            (((s.setRetour s.count rpc.destination_route_point_idx r).setBest
                rpc.destination_route_point_idx r),
              acc.2 ++ [rpc.destination_route_point_idx])
          else acc)
        acc)
    (bitsetIndices s.marked_rp)
    (fun t a => foldl_mu_le (fun acc : RState × List Nat => acc.1) _ _
      (fun t2 a2 => hinner t2 a2 a) t)
    (s, [])
  have hsecond := foldl_mu_le (fun st : RState => st)
    (fun st rp =>
      let st := { st with marked_rp := st.marked_rp.set rp true }
      let route_point := d.route_points.getD rp default
      if (route_point.order : Int) < st.Q.getD route_point.route_idx 0 then
        { st with Q := st.Q.set route_point.route_idx route_point.order }
      else st)
    ((bitsetIndices s.marked_rp).foldl
      (fun (acc : RState × List Nat) (rp : Nat) =>
        (d.footpath_rp_forward.filter (fun p => p.1 == rp)).foldl
          (fun (acc : RState × List Nat) pr =>
            let s := acc.1
            let rpc := pr.2
            let dt : DateTime := ⟨(s.getRetour s.count rp).arrival.val + rpc.length⟩
            if (s.getRetour s.count rp).type = RType.vj ∧
                dt.val < (s.getBest rpc.destination_route_point_idx).arrival.val then
              let r := type_retour.mkConnection dt dt rp
                (if rpc.connection_kind = ConnectionKind.extension then
                  RType.connection_extension
                 else RType.connection_guarantee)
              (((s.setRetour s.count rpc.destination_route_point_idx r).setBest
                  rpc.destination_route_point_idx r),
                acc.2 ++ [rpc.destination_route_point_idx])
            else acc)
          acc)
      (s, [])).2
    (by
      intro t a
      dsimp only
      split
      · exact ⟨Nat.le_refl _, rfl⟩
      · exact ⟨Nat.le_refl _, rfl⟩)
    ((bitsetIndices s.marked_rp).foldl
      (fun (acc : RState × List Nat) (rp : Nat) =>
        (d.footpath_rp_forward.filter (fun p => p.1 == rp)).foldl
          (fun (acc : RState × List Nat) pr =>
            let s := acc.1
            let rpc := pr.2
            let dt : DateTime := ⟨(s.getRetour s.count rp).arrival.val + rpc.length⟩
            if (s.getRetour s.count rp).type = RType.vj ∧
                dt.val < (s.getBest rpc.destination_route_point_idx).arrival.val then
              let r := type_retour.mkConnection dt dt rp
                (if rpc.connection_kind = ConnectionKind.extension then
                  RType.connection_extension
                 else RType.connection_guarantee)
              (((s.setRetour s.count rpc.destination_route_point_idx r).setBest
                  rpc.destination_route_point_idx r),
                acc.2 ++ [rpc.destination_route_point_idx])
            else acc)
          acc)
      (s, [])).1
  exact ⟨Nat.le_trans hsecond.1 hfirst.1, hsecond.2.trans hfirst.2⟩

/-- The measure relation threaded through a round's scan: the measure does not
increase, the `best` length is preserved, and whenever the accumulated `end`
flag flips from `true` to `false` the measure strictly decreased. -/
def muStep (x y : RState × ScanState × Bool) : Prop :=
  mu y.1 ≤ mu x.1 ∧ y.1.best.length = x.1.best.length ∧
    (x.2.2 = true → y.2.2 = false → mu y.1 < mu x.1)

theorem muStep_refl (x : RState × ScanState × Bool) : muStep x x :=
  ⟨Nat.le_refl _, rfl, fun h1 h2 => absurd (h1.symm.trans h2) (by simp)⟩

theorem muStep_of_eq_state (x y : RState × ScanState × Bool) (hs : y.1 = x.1)
    (he : y.2.2 = x.2.2) : muStep x y := by
  refine ⟨by rw [hs], by rw [hs], ?_⟩
  intro h1 h2
  rw [he, h1] at h2
  cases h2

theorem muStep_of_eq_mu (x y : RState × ScanState × Bool) (hmu : mu y.1 = mu x.1)
    (hlen : y.1.best.length = x.1.best.length) (he : y.2.2 = x.2.2) : muStep x y := by
  refine ⟨Nat.le_of_eq hmu, hlen, ?_⟩
  intro h1 h2
  rw [he, h1] at h2
  cases h2

theorem muStep_trans (x y z : RState × ScanState × Bool) (h1 : muStep x y) (h2 : muStep y z) :
    muStep x z := by
  obtain ⟨a1, a2, a3⟩ := h1
  obtain ⟨b1, b2, b3⟩ := h2
  refine ⟨Nat.le_trans b1 a1, b2.trans a2, ?_⟩
  intro hx hz
  rcases Bool.eq_false_or_eq_true y.2.2 with hy | hy
  · exact Nat.lt_of_lt_of_le (b3 hy hz) a1
  · exact Nat.lt_of_le_of_lt b1 (a3 hx hy)

theorem vStoreBetter_true (d : Data) (s : RState) (rpid : Nat) (working : DateTime)
    (bound : type_retour) (st : StopTime) (emb : Nat) :
    vStoreBetter true d s rpid working bound st emb =
      raptor_visitor.store_better d s rpid working bound st emb := rfl

theorem scanRpStore_muStep (d : Data) (gp : Bool) (rp : RoutePoint)
    (acc : RState × ScanState × Bool) (hrp : rp.idx < acc.1.best.length) :
    muStep acc (scanRpStore d true gp rp acc) := by
  obtain ⟨s, sc, e⟩ := acc
  simp only [scanRpStore]
  by_cases ht : (0 : Int) ≤ sc.t
  · rw [if_pos ht]
    by_cases hlz : sc.l_zone = lzMax ∨
        sc.l_zone ≠ (d.stop_times.getD (vCursorNext true sc.cursor) default).local_traffic_zone
    · rw [if_pos hlz]
      by_cases hbif : vBetterRet true (s.getBest rp.idx) s.b_dest.best_now = true ∨
          gp = false
      · rw [if_pos hbif, vStoreBetter_true]
        have hmu := store_better_mu d s rp.idx sc.workingDt (s.getBest rp.idx)
          (d.stop_times.getD (vCursorNext true sc.cursor) default) sc.embarquement
          (Nat.le_refl _) hrp
        refine ⟨hmu.1, hmu.2.2, ?_⟩
        intro h1 h2
        apply hmu.2.1
        have h1' : e = true := h1
        have h2' : ((raptor_visitor.store_better d s rp.idx sc.workingDt (s.getBest rp.idx)
            (d.stop_times.getD (vCursorNext true sc.cursor) default) sc.embarquement).2.2 &&
            e) = false := h2
        rw [h1', Bool.and_true] at h2'
        exact h2'
      · rw [if_neg hbif, vStoreBetter_true]
        have hble : s.b_dest.best_now.arrival.val ≤ (s.getBest rp.idx).arrival.val := by
          have hfalse : vBetterRet true (s.getBest rp.idx) s.b_dest.best_now = false := by
            rcases Bool.eq_false_or_eq_true
              (vBetterRet true (s.getBest rp.idx) s.b_dest.best_now) with h | h
            · exact absurd (Or.inl h) hbif
            · exact h
          have := of_decide_eq_false hfalse
          omega
        have hmu := store_better_mu d s rp.idx sc.workingDt s.b_dest.best_now
          (d.stop_times.getD (vCursorNext true sc.cursor) default) sc.embarquement hble hrp
        refine ⟨hmu.1, hmu.2.2, ?_⟩
        intro h1 h2
        apply hmu.2.1
        have h1' : e = true := h1
        have h2' : ((raptor_visitor.store_better d s rp.idx sc.workingDt s.b_dest.best_now
            (d.stop_times.getD (vCursorNext true sc.cursor) default) sc.embarquement).2.2 &&
            e) = false := h2
        rw [h1', Bool.and_true] at h2'
        exact h2'
    · rw [if_neg hlz]
      exact muStep_refl _
  · rw [if_neg ht]
    exact muStep_refl _

theorem scanRpCatch_state_eq (d : Data) (cw : Bool) (route : Route) (rp : RoutePoint)
    (acc : RState × ScanState × Bool) :
    (scanRpCatch d cw route rp acc).1 = acc.1 ∧
    (scanRpCatch d cw route rp acc).2.2 = acc.2.2 := by
  obtain ⟨s, sc, e⟩ := acc
  simp only [scanRpCatch]
  split
  · split
    · exact ⟨rfl, rfl⟩
    · exact ⟨rfl, rfl⟩
  · exact ⟨rfl, rfl⟩

theorem scanRp_muStep (d : Data) (gp : Bool) (route : Route) (pos : Nat)
    (acc : RState × ScanState × Bool) (hwf : WFidx d acc.1.best.length) :
    muStep acc (scanRp d true gp route acc pos) := by
  have hrp : (d.route_points.getD pos default).idx < acc.1.best.length :=
    WFidx_getD_lt d _ hwf pos
  have h1 := scanRpStore_muStep d gp (d.route_points.getD pos default) acc hrp
  have h2 := scanRpCatch_state_eq d true route (d.route_points.getD pos default)
    (scanRpStore d true gp (d.route_points.getD pos default) acc)
  exact muStep_trans _ _ _ h1 (muStep_of_eq_state _ _ h2.1 h2.2)

theorem foldl_muStep {α : Type} (d : Data) (f : (RState × ScanState × Bool) → α →
      (RState × ScanState × Bool)) (l : List α)
    (hstep : ∀ x a, WFidx d x.1.best.length → muStep x (f x a)) :
    ∀ init, WFidx d init.1.best.length → muStep init (l.foldl f init) := by
  induction l with
  | nil => intro init _; exact muStep_refl _
  | cons a t ih =>
    intro init hwf
    have hs := hstep init a hwf
    have hwf2 : WFidx d (f init a).1.best.length := by
      rw [hs.2.1]
      exact hwf
    exact muStep_trans _ _ _ hs (ih (f init a) hwf2)

theorem scanRoute_muStep (d : Data) (gp : Bool) (route : Route)
    (acc : RState × ScanState × Bool) (hwf : WFidx d acc.1.best.length) :
    muStep acc (scanRoute d true gp acc route) := by
  simp only [scanRoute]
  split
  · have hinit : muStep acc (acc.1, scanRouteInit true acc.2.1, acc.2.2) :=
      muStep_of_eq_state _ _ rfl rfl
    have hfold := foldl_muStep d (scanRp d true gp route)
      (routePositions true route (acc.1.Q.getD route.idx (vQReset true)).toNat)
      (fun x a h => scanRp_muStep d gp route a x h)
      (acc.1, scanRouteInit true acc.2.1, acc.2.2) hwf
    have hcomp := muStep_trans _ _ _ hinit hfold
    exact muStep_trans _ _ _ hcomp (muStep_of_eq_mu _ _ rfl rfl rfl)
  · exact muStep_trans _ _ _ (muStep_refl acc) (muStep_of_eq_mu _ _ rfl rfl rfl)

theorem roundPrep_mu (d : Data) (cw : Bool) (s : RState) :
    mu (roundPrep d cw s) = mu s ∧ (roundPrep d cw s).best.length = s.best.length := by
  simp only [roundPrep]
  split
  · exact ⟨rfl, rfl⟩
  · exact ⟨rfl, rfl⟩

/-- One forward round neither increases the measure nor changes the `best`
length, and strictly decreases the measure when its `end` flag is `false`. -/
theorem raptorRound_mu (d : Data) (gp : Bool) (s : RState) (sc : ScanState)
    (hwf : WFidx d s.best.length) :
    mu (raptorRound d true gp s sc).1 ≤ mu s ∧
    (raptorRound d true gp s sc).1.best.length = s.best.length ∧
    ((raptorRound d true gp s sc).2.2 = false → mu (raptorRound d true gp s sc).1 < mu s) := by
  have hprep := roundPrep_mu d true s
  have hwf2 : WFidx d (makeQueue (roundPrep d true s)).best.length := by
    show WFidx d (roundPrep d true s).best.length
    rw [hprep.2]
    exact hwf
  have hscan := foldl_muStep d (fun acc route => scanRoute d true gp acc route) d.routes
    (fun x a h => scanRoute_muStep d gp a x h)
    (makeQueue (roundPrep d true s), sc, true) hwf2
  set r := d.routes.foldl (scanRoute d true gp) (makeQueue (roundPrep d true s), sc, true)
    with hr
  have hconn := route_path_connections_forward_mu d r.1
  have hwalk := foot_path_mu d (RAPTOR.route_path_connections_forward d r.1)
  have hmq : mu (makeQueue (roundPrep d true s)) = mu s := hprep.1
  have hmqlen : (makeQueue (roundPrep d true s)).best.length = s.best.length := hprep.2
  have hconnv : vRoutePathConnections true d r.1 = RAPTOR.route_path_connections_forward d r.1 :=
    rfl
  refine ⟨?_, ?_, ?_⟩
  · show mu (RAPTOR.foot_path d true (vRoutePathConnections true d r.1)) ≤ mu s
    rw [hconnv]
    calc mu (RAPTOR.foot_path d true (RAPTOR.route_path_connections_forward d r.1)) ≤
          mu (RAPTOR.route_path_connections_forward d r.1) := hwalk.1
      _ ≤ mu r.1 := hconn.1
      _ ≤ mu (makeQueue (roundPrep d true s)) := hscan.1
      _ = mu s := hmq
  · show (RAPTOR.foot_path d true (vRoutePathConnections true d r.1)).best.length = s.best.length
    rw [hconnv, hwalk.2, hconn.2, hscan.2.1]
    exact hmqlen
  · intro hend
    show mu (RAPTOR.foot_path d true (vRoutePathConnections true d r.1)) < mu s
    rw [hconnv]
    have hstrict : mu r.1 < mu (makeQueue (roundPrep d true s)) := hscan.2.2 rfl hend
    calc mu (RAPTOR.foot_path d true (RAPTOR.route_path_connections_forward d r.1)) ≤
          mu (RAPTOR.route_path_connections_forward d r.1) := hwalk.1
      _ ≤ mu r.1 := hconn.1
      _ < mu (makeQueue (roundPrep d true s)) := hstrict
      _ = mu s := hmq

/-- With fuel exceeding the current measure, the forward round loop runs to
completion. -/
theorem raptorLoopAux_terminates (d : Data) (gp : Bool) :
    ∀ (k : Nat) (s : RState) (sc : ScanState), WFidx d s.best.length → mu s < k →
      raptorLoopAux d true gp k s sc ≠ none := by
  intro k
  induction k with
  | zero => intro s sc _ h; omega
  | succ n ih =>
    intro s sc hwf hlt
    simp only [raptorLoopAux]
    split
    · simp
    · next he =>
      have hround := raptorRound_mu d gp s sc hwf
      have hend : (raptorRound d true gp s sc).2.2 = false := by
        rcases Bool.eq_false_or_eq_true (raptorRound d true gp s sc).2.2 with h | h
        · exact absurd h he
        · exact h
      apply ih
      · show WFidx d (raptorRound d true gp s sc).1.best.length
        rw [hround.2.1]
        exact hwf
      · have := hround.2.2 hend
        omega

/-- C2 (amended): the round loop stops, in BOTH directions, as soon as a round
produces no new marking (`store_better` never returned `false` during the
round, i.e. the round's `end` flag is still `true`; first conjunct), and the
FORWARD loop terminates for every input because every forward store strictly
improves the bounded scalar measure `mu`, the sum of the best arrivals (second
conjunct: some finite fuel always suffices).  The reverse loop is excluded
from the termination conjunct: reverse stores strictly increase departures,
which are NOT bounded, and the counterexample exhibits a reverse input on
which the loop runs forever. -/
theorem C2_round_loop_terminates_amended (d : Data) (gp : Bool) :
    (∀ (cw : Bool) (s : RState) (sc : ScanState) (n : Nat),
      (raptorRound d cw gp s sc).2.2 = true →
      raptorLoopAux d cw gp (n + 1) s sc = some (raptorRound d cw gp s sc).1) ∧
    (∀ s : RState, WFidx d s.best.length →
      ∃ n, RAPTOR.boucleRAPTOR d gp n s ≠ none) := by
  constructor
  · intro cw s sc n hend
    simp only [raptorLoopAux]
    rw [if_pos hend]
  · intro s hwf
    refine ⟨mu (RAPTOR.foot_path d true { s with count := 0 }) + 1, ?_⟩
    show raptorLoopAux d true gp _ (RAPTOR.foot_path d true { s with count := 0 })
      ⟨-1, vEmbInit true, vWdInit true, 0, lzMax⟩ ≠ none
    apply raptorLoopAux_terminates d gp
    · show WFidx d (RAPTOR.foot_path d true { s with count := 0 }).best.length
      rw [(foot_path_mu d _).2]
      exact hwf
    · omega

/-- Concrete timetable shared by the C2 witness and the C3/C5 counterexamples:
one route A → B with a single vehicle journey (departing A at 08:10 in traffic
zone 5, reaching B at 08:30 in zone 7) and a guaranteed route-path connection
of 60 s from B's route point back to A's. -/
def dSc : Data :=
  ⟨[⟨[0]⟩, ⟨[1]⟩],
    [⟨0, 0, 0, 0⟩, ⟨1, 0, 1, 1⟩],
    [⟨0, 0, 0, "R0", [0], [0, 1]⟩],
    [⟨0, [0, 1]⟩],
    [⟨fun _ => true⟩],
    [⟨"L0"⟩], [⟨"M0"⟩],
    [⟨0, 29340, 29400, 0, 0, 5, true, true⟩, ⟨1, 30600, 30720, 0, 1, 7, true, true⟩],
    [], [(0, 0), (0, 0)],
    [(1, ⟨0, 60, ConnectionKind.guarantee⟩)], []⟩

/-- Fresh engine state for `dSc` with its route validity computed. -/
def s0Sc : RState :=
  { initialState dSc with routes_valides := RAPTOR.set_routes_valides dSc 0 [] }

/-- The `dSc` engine state after `clear_and_init` for a query departing stop
point A at 08:00 with A also registered as the destination (bound `inf`).
The seed list is spelled out: it is the single seed `init.getDepartures`
produces for `departs = [(0, 0)]` at 08:00 going forward — route point 0 of
stop point A at `28800 + 0 / 1.38 = 28800` seconds. -/
def s1Sc : RState :=
  RAPTOR.clear_and_init dSc s0Sc [⟨0, ⟨28800⟩, ⟨28800⟩⟩] [(0, 0)] DateTime.inf true true

/-- The scan-variable initialization of `raptor_loop`. -/
def scInitSc : ScanState := ⟨-1, vEmbInit true, vWdInit true, 0, lzMax⟩

/-- Witness for the amended C2 at concrete inputs: the forward loop on `dSc`
from the initialized query state terminates, and on the empty timetable `dW8`
a round with a `true` flag returns immediately — in both directions. -/
theorem C2_round_loop_terminates_amended_witness :
    (WFidx dSc s1Sc.best.length ∧ ∃ n, RAPTOR.boucleRAPTOR dSc false n s1Sc ≠ none) ∧
    ((raptorRound dW8 true false (initialState dW8) scInitSc).2.2 = true ∧
      raptorLoopAux dW8 true false 1 (initialState dW8) scInitSc =
        some (raptorRound dW8 true false (initialState dW8) scInitSc).1) ∧
    ((raptorRound dW8 false false (initialState dW8)
        ⟨-1, vEmbInit false, vWdInit false, 0, lzMax⟩).2.2 = true ∧
      raptorLoopAux dW8 false false 1 (initialState dW8)
          ⟨-1, vEmbInit false, vWdInit false, 0, lzMax⟩ =
        some (raptorRound dW8 false false (initialState dW8)
          ⟨-1, vEmbInit false, vWdInit false, 0, lzMax⟩).1) :=
  ⟨⟨⟨by decide, by decide⟩,
      (C2_round_loop_terminates_amended dSc false).2 s1Sc ⟨by decide, by decide⟩⟩,
    ⟨by decide,
      (C2_round_loop_terminates_amended dW8 false).1 true (initialState dW8) scInitSc 0
        (by decide)⟩,
    ⟨by decide,
      (C2_round_loop_terminates_amended dW8 false).1 false (initialState dW8)
        ⟨-1, vEmbInit false, vWdInit false, 0, lzMax⟩ 0 (by decide)⟩⟩

/-! ## Claim C3 -/

/-- The engine state entering round 1 on `dSc` (raptor.cpp:643-648): round
counter reset and the initial footpath closure applied. -/
def sPreSc : RState := RAPTOR.foot_path dSc true { s1Sc with count := 0 }

/-- Round 1 on `dSc`: the resulting engine state, the scan variables exactly as
the round leaves them, and the round's `end` flag. -/
def round1Sc : RState × ScanState × Bool := raptorRound dSc true false sPreSc scInitSc

/-- C3 counterexample: the scan variables of `raptor_loop` live outside the
round loop (raptor.cpp:643-646) and `l_zone` is not among those re-initialized
per route (raptor.cpp:658-660).  Concretely, on `dSc` round 1 boards the
vehicle journey in traffic zone 5 and ends with `l_zone = 5`; it also marks
route 0 again (`Q[0] = 0`, route 0 valid) and returns `end = false`, so round 2
scans route 0 — and the per-route re-initialization performed at the start of
that scan resets the trip, the boarding route point and the working datetime
but leaves `l_zone = 5`, not the claimed `none` value `lzMax`. -/
theorem C3_boarding_reinit_counterexample :
    (scanRouteInit true round1Sc.2.1).t = -1 ∧
    (scanRouteInit true round1Sc.2.1).embarquement = vEmbInit true ∧
    (scanRouteInit true round1Sc.2.1).workingDt = vWdInit true ∧
    (scanRouteInit true round1Sc.2.1).l_zone = 5 ∧
    (5 : Nat) ≠ lzMax ∧
    round1Sc.1.Q.getD 0 intMax = 0 ∧
    round1Sc.1.routes_valides.getD 0 false = true ∧
    round1Sc.2.2 = false := by
  refine ⟨rfl, rfl, rfl, by decide, by decide, by decide, by decide, by decide⟩

/-- The coupling between two route-scan accumulators that differ only in the
scan variable `l_zone`, with a boarded trip forcing the zones equal: this is
the invariant showing the missing `l_zone` reset cannot change a route scan's
outcome. -/
def scanRel (x y : RState × ScanState × Bool) : Prop :=
  x.1 = y.1 ∧ x.2.2 = y.2.2 ∧
  x.2.1 = { y.2.1 with l_zone := x.2.1.l_zone } ∧
  (x.2.1.l_zone ≠ y.2.1.l_zone → x.2.1.t = -1)

theorem scanRel_refl (x : RState × ScanState × Bool) : scanRel x x :=
  ⟨rfl, rfl, rfl, fun h => absurd rfl h⟩

/-- A binary relation preserved by each step of a fold is preserved by the
whole fold. -/
theorem relFoldl {α β : Type} (R : β → β → Prop) (f : β → α → β) (l : List α)
    (hstep : ∀ b c a, R b c → R (f b a) (f c a)) :
    ∀ x y, R x y → R (l.foldl f x) (l.foldl f y) := by
  induction l with
  | nil => intro x y h; exact h
  | cons a t ih => intro x y h; exact ih _ _ (hstep _ _ _ h)

/-- With no boarded trip (`t = -1`) the storing half of a route-point iteration
is the identity (raptor.cpp:663: `if(t >= 0)`). -/
theorem scanRpStore_t_neg_one (d : Data) (cw gp : Bool) (rp : RoutePoint)
    (s : RState) (sc : ScanState) (e : Bool) (ht : sc.t = -1) :
    scanRpStore d cw gp rp (s, sc, e) = (s, sc, e) := by
  simp only [scanRpStore, ht]
  rw [if_neg (by decide : ¬ (0 : Int) ≤ -1)]

/-- The trip-catching half never reads `l_zone` and overwrites it on a rebind:
two accumulators with `t = -1` differing only in `l_zone` stay coupled. -/
theorem scanRpCatch_scanRel (d : Data) (cw : Bool) (route : Route) (rp : RoutePoint)
    (s : RState) (e : Bool) (m : Nat) (w : DateTime) (c : Nat) (z1 z2 : Nat) :
    scanRel (scanRpCatch d cw route rp (s, ⟨-1, m, w, c, z1⟩, e))
      (scanRpCatch d cw route rp (s, ⟨-1, m, w, c, z2⟩, e)) := by
  simp only [scanRpCatch]
  split
  · split
    · exact scanRel_refl _
    · exact ⟨rfl, rfl, rfl, fun _ => rfl⟩
  · exact ⟨rfl, rfl, rfl, fun _ => rfl⟩

/-- One route-point iteration preserves the `l_zone` coupling. -/
theorem scanRp_scanRel (d : Data) (cw gp : Bool) (route : Route) (pos : Nat)
    (x y : RState × ScanState × Bool) (h : scanRel x y) :
    scanRel (scanRp d cw gp route x pos) (scanRp d cw gp route y pos) := by
  obtain ⟨s1, sc1, e1⟩ := x
  obtain ⟨s2, sc2, e2⟩ := y
  obtain ⟨h1, h2, h3, h4⟩ := h
  dsimp only at h1 h2 h3 h4
  subst h1
  subst h2
  by_cases hz : sc1.l_zone = sc2.l_zone
  · have hsc : sc1 = sc2 := by rw [h3, hz]
    rw [hsc]
    exact scanRel_refl _
  · have ht : sc1.t = -1 := h4 hz
    have ht2 : sc2.t = -1 := by
      have := congrArg ScanState.t h3
      dsimp only at this
      omega
    obtain ⟨t1, m1, w1, c1, z1⟩ := sc1
    obtain ⟨t2, m2, w2, c2, z2⟩ := sc2
    dsimp only at ht ht2 hz
    subst ht
    subst ht2
    have h3' : m1 = m2 ∧ w1 = w2 ∧ c1 = c2 := by
      have hm := congrArg ScanState.embarquement h3
      have hw := congrArg ScanState.workingDt h3
      have hc := congrArg ScanState.cursor h3
      exact ⟨hm, hw, hc⟩
    obtain ⟨rfl, rfl, rfl⟩ := h3'
    simp only [scanRp]
    rw [scanRpStore_t_neg_one d cw gp _ _ _ _ rfl, scanRpStore_t_neg_one d cw gp _ _ _ _ rfl]
    exact scanRpCatch_scanRel d cw route _ _ _ m1 w1 c1 z1 z2

/-- A whole route scan started from two scan states that agree except on
`l_zone` produces the same engine state and the same `end` flag. -/
theorem scanRoute_scanRel (d : Data) (cw gp : Bool) (route : Route)
    (s : RState) (e : Bool) (sc1 sc2 : ScanState)
    (h3 : sc1 = { sc2 with l_zone := sc1.l_zone }) :
    (scanRoute d cw gp (s, sc1, e) route).1 = (scanRoute d cw gp (s, sc2, e) route).1 ∧
    (scanRoute d cw gp (s, sc1, e) route).2.2 = (scanRoute d cw gp (s, sc2, e) route).2.2 := by
  obtain ⟨t1, m1, w1, c1, z1⟩ := sc1
  obtain ⟨t2, m2, w2, c2, z2⟩ := sc2
  have h3' : t1 = t2 ∧ m1 = m2 ∧ w1 = w2 ∧ c1 = c2 := by
    have ha := congrArg ScanState.t h3
    have hm := congrArg ScanState.embarquement h3
    have hw := congrArg ScanState.workingDt h3
    have hc := congrArg ScanState.cursor h3
    exact ⟨ha, hm, hw, hc⟩
  obtain ⟨rfl, rfl, rfl, rfl⟩ := h3'
  simp only [scanRoute]
  split
  · have hrel :=
      relFoldl scanRel (scanRp d cw gp route)
        (routePositions cw route (s.Q.getD route.idx (vQReset cw)).toNat)
        (fun b c a h => scanRp_scanRel d cw gp route a b c h)
        (s, scanRouteInit cw ⟨t1, m1, w1, c1, z1⟩, e)
        (s, scanRouteInit cw ⟨t1, m1, w1, c1, z2⟩, e)
        ⟨rfl, rfl, rfl, fun _ => rfl⟩
    exact ⟨by rw [hrel.1], hrel.2.1⟩
  · exact ⟨rfl, rfl⟩

/-- C3 (amended): at the start of scanning each marked route the boarded trip
is set to none (`t = -1`), the boarding route point and the working datetime
are reset to the direction's initial values, but `l_zone` and the stop-time
cursor are NOT re-initialized — they keep their values from the previously
scanned route (first conjunct; `l_zone` is set to `none` only once per query,
raptor.cpp:646).  The omission cannot alter the computed labels: a route scan
started from two scan-variable states that differ only in `l_zone` yields the
same engine state and the same `end` flag, because storing requires a boarded
trip and catching a trip overwrites `l_zone` (second conjunct). -/
theorem C3_boarding_reinit_amended :
    (∀ (cw : Bool) (sc : ScanState),
      scanRouteInit cw sc = ⟨-1, vEmbInit cw, vWdInit cw, sc.cursor, sc.l_zone⟩) ∧
    (∀ (d : Data) (cw gp : Bool) (route : Route) (s : RState) (e : Bool) (sc1 sc2 : ScanState),
      sc1 = { sc2 with l_zone := sc1.l_zone } →
      (scanRoute d cw gp (s, sc1, e) route).1 = (scanRoute d cw gp (s, sc2, e) route).1 ∧
      (scanRoute d cw gp (s, sc1, e) route).2.2 = (scanRoute d cw gp (s, sc2, e) route).2.2) :=
  ⟨fun _ _ => rfl,
    fun d cw gp route s e sc1 sc2 h3 => scanRoute_scanRel d cw gp route s e sc1 sc2 h3⟩

/-- Witness for the amended C3 at concrete inputs: scanning route 0 of `dSc`
from two scan states that differ only in `l_zone` (5 versus none). -/
theorem C3_boarding_reinit_amended_witness :
    (scanRoute dSc true false (s1Sc, ⟨7, 3, ⟨1⟩, 2, 5⟩, true) (dSc.routes.getD 0 default)).1 =
      (scanRoute dSc true false (s1Sc, ⟨7, 3, ⟨1⟩, 2, lzMax⟩, true)
        (dSc.routes.getD 0 default)).1 ∧
    (scanRoute dSc true false (s1Sc, ⟨7, 3, ⟨1⟩, 2, 5⟩, true) (dSc.routes.getD 0 default)).2.2 =
      (scanRoute dSc true false (s1Sc, ⟨7, 3, ⟨1⟩, 2, lzMax⟩, true)
        (dSc.routes.getD 0 default)).2.2 :=
  C3_boarding_reinit_amended.2 dSc true false (dSc.routes.getD 0 default) s1Sc true
    ⟨7, 3, ⟨1⟩, 2, 5⟩ ⟨7, 3, ⟨1⟩, 2, lzMax⟩ (by decide)

/-! ## Claim C5 -/

/-- The final engine state of the `dSc` query: `boucleRAPTOR` terminates within
3 rounds of fuel (round 1 marks, round 2 confirms). -/
def s2Sc : RState := (RAPTOR.boucleRAPTOR dSc false 3 s1Sc).getD (initialState dSc)

/-- C5 counterexample: on the `dSc` query the round-0 label at route point 0 is
the departure seed (arrival 28800) and the round-1 label at the same route
point is a route-path-connection label (arrival 30660) installed by
`route_path_connections_forward`, which writes `retour[count]` without
comparing against the previous round: both labels are initialized yet the
round-1 arrival is strictly LARGER than the round-0 arrival, refuting the
claimed forward monotonicity `τ[k][rp].arrival ≤ τ[k-1][rp].arrival`. -/
theorem C5_label_monotonicity_counterexample :
    (RAPTOR.boucleRAPTOR dSc false 3 s1Sc).isSome = true ∧
    (s2Sc.getRetour 0 0).type = RType.depart ∧
    (s2Sc.getRetour 1 0).type = RType.connection_guarantee ∧
    (s2Sc.getRetour 0 0).arrival.val < (s2Sc.getRetour 1 0).arrival.val := by
  exact ⟨by decide, by decide, by decide, by decide⟩

/-- C5 (amended): round-to-round label monotonicity DOES hold for the labels
written by `store_better` (the route-scan writer the claim cites): whenever the
pruning bound used by the scan is at most the previous round's label at the
route point (forward: on arrivals; reverse, dually, at least it on departures),
the round-`count` label after `store_better` is either untouched or satisfies
the claimed inequality against the previous round.  The unrestricted claim is
false because departure seeds, footpath labels and route-path-connection
labels are not filtered by such a bound, as the counterexample shows. -/
theorem C5_label_monotonicity_amended (d : Data) (s : RState) (rpid : Nat)
    (working : DateTime) (bound : type_retour) (st : StopTime) (emb : Nat) :
    (bound.arrival.val ≤ (s.getRetour (s.count - 1) rpid).arrival.val →
      (raptor_visitor.store_better d s rpid working bound st emb).1.getRetour s.count rpid =
        s.getRetour s.count rpid ∨
      ((raptor_visitor.store_better d s rpid working bound st emb).1.getRetour s.count
          rpid).arrival.val ≤ (s.getRetour (s.count - 1) rpid).arrival.val) ∧
    ((s.getRetour (s.count - 1) rpid).departure.val ≤ bound.departure.val →
      (raptor_reverse_visitor.store_better d s rpid working bound st emb).1.getRetour s.count
          rpid = s.getRetour s.count rpid ∨
      (s.getRetour (s.count - 1) rpid).departure.val ≤
        ((raptor_reverse_visitor.store_better d s rpid working bound st emb).1.getRetour s.count
          rpid).departure.val) := by
  constructor
  · intro hb
    simp only [raptor_visitor.store_better]
    by_cases h1 : (working.update st.arrival_time).val < bound.arrival.val ∧
        st.drop_off_allowed = true
    · rw [if_pos h1]
      split
      · rcases getRetour_setRetour_cases s s.count rpid
            (type_retour.ofStopTime st (working.update st.arrival_time) emb true) s.count rpid with
          hc | hc
        · exact Or.inl hc
        · refine Or.inr (le_trans (le_of_eq (congrArg (fun x => x.arrival.val) hc)) ?_)
          simp [type_retour.ofStopTime]
          omega
      · rcases getRetour_setRetour_cases s s.count rpid
            (type_retour.ofStopTime st (working.update st.arrival_time) emb true) s.count rpid with
          hc | hc
        · exact Or.inl hc
        · refine Or.inr (le_trans (le_of_eq (congrArg (fun x => x.arrival.val) hc)) ?_)
          simp [type_retour.ofStopTime]
          omega
    · rw [if_neg h1]
      by_cases h3 : working.update st.arrival_time = bound.arrival ∧
          (s.getRetour (s.count - 1) rpid).type = RType.uninitialized
      · rw [if_pos h3]
        split
        · rcases getRetour_setRetour_cases s s.count rpid
              (type_retour.ofStopTime st (working.update st.arrival_time) emb true) s.count rpid
            with hc | hc
          · exact Or.inl hc
          · refine Or.inr (le_trans (le_of_eq (congrArg (fun x => x.arrival.val) hc)) ?_)
            simp [type_retour.ofStopTime]
            have := congrArg DateTime.val h3.1
            omega
        · exact Or.inl rfl
      · rw [if_neg h3]
        exact Or.inl rfl
  · intro hb
    simp only [raptor_reverse_visitor.store_better]
    by_cases h1 : bound.departure.val < (working.updatereverse st.departure_time).val ∧
        st.pick_up_allowed = true
    · rw [if_pos h1]
      split
      · rcases getRetour_setRetour_cases s s.count rpid
            (type_retour.ofStopTime st (working.updatereverse st.departure_time) emb false)
            s.count rpid with hc | hc
        · exact Or.inl hc
        · refine Or.inr (le_trans ?_ (le_of_eq (congrArg (fun x => x.departure.val) hc.symm)))
          simp [type_retour.ofStopTime]
          omega
      · rcases getRetour_setRetour_cases s s.count rpid
            (type_retour.ofStopTime st (working.updatereverse st.departure_time) emb false)
            s.count rpid with hc | hc
        · exact Or.inl hc
        · refine Or.inr (le_trans ?_ (le_of_eq (congrArg (fun x => x.departure.val) hc.symm)))
          simp [type_retour.ofStopTime]
          omega
    · rw [if_neg h1]
      by_cases h3 : working.updatereverse st.departure_time = bound.departure ∧
          (s.getRetour (s.count - 1) rpid).type = RType.uninitialized
      · rw [if_pos h3]
        split
        · rcases getRetour_setRetour_cases s s.count rpid
              (type_retour.ofStopTime st (working.updatereverse st.departure_time) emb false)
              s.count rpid with hc | hc
          · exact Or.inl hc
          · refine Or.inr (le_trans ?_ (le_of_eq (congrArg (fun x => x.departure.val) hc.symm)))
            simp [type_retour.ofStopTime]
            have := congrArg DateTime.val h3.1
            omega
        · exact Or.inl rfl
      · rw [if_neg h3]
        exact Or.inl rfl

/-- Concrete engine state for the amended C5 witness: one route point, round 1
current, previous-round label uninitialized (arrival and departure `inf`). -/
def sW5 : RState :=
  ⟨[[retour_sentinel], [retour_sentinel]], [retour_sentinel], [], [false], [false], default,
    [false], 1⟩

/-- Witness for the amended C5 at concrete inputs: both bound hypotheses hold
at the sentinel bound, and the stored labels satisfy the dominance. -/
theorem C5_label_monotonicity_amended_witness :
    (retour_sentinel.arrival.val ≤ (sW5.getRetour (sW5.count - 1) 0).arrival.val ∧
      ((raptor_visitor.store_better dW1 sW5 0 ⟨28800⟩ retour_sentinel
          ⟨7, 29340, 29400, 0, 1, lzMax, true, true⟩ 5).1.getRetour sW5.count 0 =
        sW5.getRetour sW5.count 0 ∨
      ((raptor_visitor.store_better dW1 sW5 0 ⟨28800⟩ retour_sentinel
          ⟨7, 29340, 29400, 0, 1, lzMax, true, true⟩ 5).1.getRetour sW5.count 0).arrival.val ≤
        (sW5.getRetour (sW5.count - 1) 0).arrival.val)) ∧
    ((sW5.getRetour (sW5.count - 1) 0).departure.val ≤ retour_sentinel.departure.val ∧
      ((raptor_reverse_visitor.store_better dW1 sW5 0 ⟨28800⟩ retour_sentinel
          ⟨7, 29340, 29400, 0, 1, lzMax, true, true⟩ 5).1.getRetour sW5.count 0 =
        sW5.getRetour sW5.count 0 ∨
      (sW5.getRetour (sW5.count - 1) 0).departure.val ≤
        ((raptor_reverse_visitor.store_better dW1 sW5 0 ⟨28800⟩ retour_sentinel
          ⟨7, 29340, 29400, 0, 1, lzMax, true, true⟩ 5).1.getRetour sW5.count
          0).departure.val)) :=
  ⟨⟨by decide,
      (C5_label_monotonicity_amended dW1 sW5 0 ⟨28800⟩ retour_sentinel
        ⟨7, 29340, 29400, 0, 1, lzMax, true, true⟩ 5).1 (by decide)⟩,
    ⟨by decide,
      (C5_label_monotonicity_amended dW1 sW5 0 ⟨28800⟩ retour_sentinel
        ⟨7, 29340, 29400, 0, 1, lzMax, true, true⟩ 5).2 (by decide)⟩⟩

/-! ## Claim C2: divergence of the reverse round loop

The reverse round loop has no termination guarantee: reverse stores must
strictly INCREASE departures, which are unbounded.  `dDiv` is a concrete
timetable whose single vehicle journey carries 72:00:00-style stop-time hours
(legal overnight-service values exceeding one day); on it every reverse round
catches the trip later, stores a strictly later departure at route point 0,
and the backward route-path connection re-marks the route, forever. -/

/-- Concrete timetable for the C2 counterexample: one route A → B, one vehicle
journey whose stop-times carry hour 259200 (= 72:00:00) at both stops (with
arrival hour 0 at B so the trip is always catchable), and a guaranteed
backward route-path connection of 60 s from A\'s route point to B\'s. -/
def dDiv : Data :=
  ⟨[⟨[0]⟩, ⟨[1]⟩],
    [⟨0, 0, 0, 0⟩, ⟨1, 0, 1, 1⟩],
    [⟨0, 0, 0, "R0", [0], [0, 1]⟩],
    [⟨0, [0, 1]⟩],
    [⟨fun _ => true⟩],
    [⟨"L0"⟩], [⟨"M0"⟩],
    [⟨0, 259200, 259200, 0, 0, 5, true, true⟩, ⟨1, 0, 259200, 0, 1, 7, true, true⟩],
    [], [(0, 0), (0, 0)],
    [], [(0, ⟨1, 60, ConnectionKind.guarantee⟩)]⟩

/-- The vehicle-journey label stored at route point 0 in a `dDiv` round whose
store rolled the working datetime to `w`. -/
def vjL (w : Nat) : type_retour := ⟨RType.vj, ⟨w + 172800⟩, ⟨w⟩, 0, 1⟩

/-- The backward connection label installed at route point 1 from `vjL w`. -/
def connL (w : Nat) : type_retour :=
  ⟨RType.connection_guarantee, ⟨w + 172740⟩, ⟨w + 172740⟩, invalid_idx, 0⟩

/-- The self-similar engine state reached after each `dDiv` reverse round:
history `R`, current slice and flat best array built from `w`, route 0 queued
at order 1. -/
def SDiv (w : Nat) (R : List (List type_retour)) : RState :=
  ⟨R ++ [[vjL w, connL w]], [vjL w, connL w], [1], [true, true], [true, false], default,
    [true], R.length⟩

/-- The seed state of the diverging query: a departure label at route point 1
at datetime 172800 (two whole days), route 0 queued at order 1. -/
def s1Div : RState :=
  ⟨[[retour_sentinel_reverse, type_retour.mkSeed ⟨172800⟩ ⟨172800⟩]],
    [retour_sentinel_reverse, retour_sentinel_reverse], [1], [false, false], [false, false],
    default, [true], 0⟩

/-- Reading a list appended after `R` at position `R.length + i`. -/
theorem getD_append_len {α : Type} (R l : List α) (i : Nat) (x : α) :
    (R ++ l).getD (R.length + i) x = l.getD i x := by
  rw [List.getD_eq_getElem?_getD, List.getElem?_append_right (by omega),
    Nat.add_sub_cancel_left, List.getD_eq_getElem?_getD]

/-- Writing a list appended after `R` at position `R.length + i`. -/
theorem set_append_len {α : Type} (l : List α) (i : Nat) (x : α) :
    ∀ R : List α, (R ++ l).set (R.length + i) x = R ++ l.set i x := by
  intro R
  induction R with
  | nil =>
    show l.set (0 + i) x = [] ++ l.set i x
    rw [Nat.zero_add]
    rfl
  | cons a t ih =>
    show (a :: (t ++ l)).set (t.length + 1 + i) x = a :: (t ++ l.set i x)
    have h : t.length + 1 + i = (t.length + i) + 1 := by omega
    rw [h]
    show a :: (t ++ l).set (t.length + i) x = a :: (t ++ l.set i x)
    rw [ih]

theorem getD_append_self {α : Type} (R : List α) (a : α) (l : List α) (x : α) :
    (R ++ (a :: l)).getD R.length x = a := by
  have h := getD_append_len R (a :: l) 0 x
  rw [Nat.add_zero] at h
  exact h

theorem getD_append_one {α : Type} (R : List α) (a b : α) (l : List α) (x : α) :
    (R ++ (a :: b :: l)).getD (R.length + 1) x = b := by
  have h := getD_append_len R (a :: b :: l) 1 x
  exact h

theorem set_append_one {α : Type} (R : List α) (a b : α) (l : List α) (x : α) :
    (R ++ (a :: b :: l)).set (R.length + 1) x = R ++ (a :: x :: l) := by
  have h := set_append_len (a :: b :: l) 1 x R
  exact h

/-- With whole-day `w` the rollback to hour `259200` (72:00:00) lands one day
past the next-lower day boundary: it strictly increases the datetime. -/
theorem updA (w : Nat) (hmod : w % 86400 = 0) :
    DateTime.updatereverse ⟨w + 172740⟩ 259200 = ⟨w + 259200⟩ := by
  have h : ¬ (259200 ≤ (w + 172740) % 86400) := by omega
  unfold DateTime.updatereverse DateTime.hour secondsInDay
  dsimp only
  rw [if_neg h]
  refine congrArg DateTime.mk ?_
  omega

theorem updB (w : Nat) (hmod : w % 86400 = 0) :
    DateTime.updatereverse ⟨w + 259200⟩ 259200 = ⟨w + 432000⟩ := by
  have h : ¬ (259200 ≤ (w + 259200) % 86400) := by omega
  unfold DateTime.updatereverse DateTime.hour secondsInDay
  dsimp only
  rw [if_neg h]
  refine congrArg DateTime.mk ?_
  omega

theorem updC (w : Nat) (hmod : w % 86400 = 0) :
    DateTime.updatereverse ⟨w + 432000⟩ 259200 = ⟨w + 604800⟩ := by
  have h : ¬ (259200 ≤ (w + 432000) % 86400) := by omega
  unfold DateTime.updatereverse DateTime.hour secondsInDay
  dsimp only
  rw [if_neg h]
  refine congrArg DateTime.mk ?_
  omega

/-- The single vehicle journey of `dDiv` is always catchable at order 1: its
stop-time there has arrival hour 0. -/
theorem tardiestDiv (dt : DateTime) :
    tardiest_trip dDiv (dDiv.routes.getD 0 default) 1 dt = 0 := by
  unfold tardiest_trip
  have h2 : (DateTime.ofDateHour dt.date
      (dDiv.stop_times.getD
        ((dDiv.vehicle_journeys.getD 0 default).stop_time_list.getD 1 0)
        default).arrival_time).val ≤ dt.val := by
    show dt.date * secondsInDay + 0 ≤ dt.val
    unfold DateTime.date secondsInDay
    omega
  rw [show (dDiv.routes.getD 0 default).vehicle_journey_list.reverse = [0] by rfl]
  rw [List.find?_cons_of_pos _ (by
    show (true && decide ((DateTime.ofDateHour dt.date 0).val ≤ dt.val)) = true
    rw [Bool.true_and, decide_eq_true_eq]
    exact h2)]
  rfl


/-- The `dDiv` engine state right after `make_queue` of round `R.length + 1`. -/
def divPrep (w : Nat) (R : List (List type_retour)) : RState :=
  ⟨R ++ [[vjL w, connL w], [retour_sentinel_reverse, retour_sentinel_reverse]],
    [vjL w, connL w], [1], [false, false], [false, false], default, [true], R.length + 1⟩

theorem divP1 (w : Nat) (R : List (List type_retour)) :
    makeQueue (roundPrep dDiv false (SDiv w R)) = divPrep w R := by
  unfold roundPrep SDiv
  dsimp only
  rw [if_pos (by simp)]
  unfold oneMoreStep makeQueue
  dsimp only
  rw [List.append_assoc]
  rfl

theorem vBestTrip_false (d : Data) (route : Route) (order : Nat) (dt : DateTime) :
    vBestTrip false d route order dt = tardiest_trip d route order dt := by
  unfold vBestTrip
  rw [if_neg (fun h => Bool.noConfusion h)]

theorem vPrevDT_false (r : type_retour) : vPrevDT false r = r.departure := by
  unfold vPrevDT
  rw [if_neg (fun h => Bool.noConfusion h)]

theorem vUpdate_false (dt : DateTime) (st : StopTime) :
    vUpdate false dt st = dt.updatereverse st.departure_time := by
  unfold vUpdate
  rw [if_neg (fun h => Bool.noConfusion h)]

theorem ofStopTime_false (st : StopTime) (dt : DateTime) (emb : Nat) :
    type_retour.ofStopTime st dt emb false =
      ⟨RType.vj, dt.updatereverse st.arrival_time, dt, st.idx, emb⟩ := by
  unfold type_retour.ofStopTime
  rw [if_neg (fun h => Bool.noConfusion h)]

theorem divRp1 (w : Nat) (R : List (List type_retour)) (m : Nat) (wdt : DateTime) (c z : Nat)
    (hmod : w % 86400 = 0) :
    scanRp dDiv false false (dDiv.routes.getD 0 default)
        (divPrep w R, ⟨-1, m, wdt, c, z⟩, true) 1 =
      (divPrep w R, ⟨0, 1, ⟨w + 259200⟩, 1, 7⟩, true) := by
  unfold scanRp
  dsimp only
  rw [scanRpStore_t_neg_one dDiv false false _ _ _ _ rfl]
  have hret : (divPrep w R).getRetour ((divPrep w R).count - 1) 1 = connL w := by
    show ((R ++ [[vjL w, connL w], [retour_sentinel_reverse, retour_sentinel_reverse]]).getD
        (R.length + 1 - 1) []).getD 1 retour_sentinel = connL w
    rw [Nat.add_sub_cancel, getD_append_self]
    rfl
  unfold scanRpCatch
  dsimp only
  rw [show (dDiv.route_points.getD 1 default).idx = 1 from rfl,
    show (dDiv.route_points.getD 1 default).order = 1 from rfl]
  rw [hret]
  rw [if_pos ⟨fun h => RType.noConfusion h, Or.inl rfl⟩]
  rw [vBestTrip_false, vPrevDT_false]
  rw [show (connL w).departure = (⟨w + 172740⟩ : DateTime) from rfl]
  rw [tardiestDiv]
  rw [if_pos (by decide)]
  rw [vUpdate_false]
  rw [show (dDiv.stop_times.getD
      ((dDiv.vehicle_journeys.getD (((0 : Int)).toNat) default).stop_time_list.getD 1 0)
      default).departure_time = 259200 from rfl]
  rw [updA w hmod]
  rfl

/-- The state after the round's store at route point 0 (labels spelled with
normalized offsets). -/
def divStoreS (w : Nat) (R : List (List type_retour)) : RState :=
  ⟨R ++ [[vjL w, connL w],
      [⟨RType.vj, ⟨w + 604800⟩, ⟨w + 432000⟩, 0, 1⟩, retour_sentinel_reverse]],
    [⟨RType.vj, ⟨w + 604800⟩, ⟨w + 432000⟩, 0, 1⟩, connL w], [1], [true, false],
    [true, false], default, [true], R.length + 1⟩

theorem divStoreLemma (w : Nat) (R : List (List type_retour)) (hmod : w % 86400 = 0) :
    raptor_reverse_visitor.store_better dDiv (divPrep w R) 0 ⟨w + 259200⟩ (vjL w)
        (dDiv.stop_times.getD 0 default) 1 = (divStoreS w R, ⟨w + 432000⟩, false) := by
  unfold raptor_reverse_visitor.store_better
  dsimp only
  rw [show (dDiv.stop_times.getD 0 default).departure_time = 259200 from rfl]
  rw [updB w hmod]
  rw [if_pos ⟨by show w < w + 432000; omega, rfl⟩]
  rw [ofStopTime_false]
  rw [show (dDiv.stop_times.getD 0 default).arrival_time = 259200 from rfl,
    show (dDiv.stop_times.getD 0 default).idx = 0 from rfl]
  rw [updC w hmod]
  have hinner : (divPrep w R).retour.getD (divPrep w R).count [] =
      [retour_sentinel_reverse, retour_sentinel_reverse] := by
    show (R ++ [[vjL w, connL w], [retour_sentinel_reverse, retour_sentinel_reverse]]).getD
      (R.length + 1) [] = [retour_sentinel_reverse, retour_sentinel_reverse]
    rw [getD_append_one]
  unfold RState.setRetour RState.setBest
  dsimp only
  rw [hinner]
  have houter : (divPrep w R).retour.set (divPrep w R).count
      ([retour_sentinel_reverse, retour_sentinel_reverse].set 0
        ⟨RType.vj, ⟨w + 604800⟩, ⟨w + 432000⟩, 0, 1⟩) =
      R ++ [[vjL w, connL w],
        [⟨RType.vj, ⟨w + 604800⟩, ⟨w + 432000⟩, 0, 1⟩, retour_sentinel_reverse]] := by
    show (R ++ [[vjL w, connL w], [retour_sentinel_reverse, retour_sentinel_reverse]]).set
        (R.length + 1) _ = _
    rw [set_append_one]
    rfl
  rw [houter]
  rw [if_neg (fun h => Bool.noConfusion h)]
  rfl

theorem vStoreBetter_false (d : Data) (s : RState) (rpid : Nat) (wk : DateTime)
    (bd : type_retour) (st : StopTime) (emb : Nat) :
    vStoreBetter false d s rpid wk bd st emb =
      raptor_reverse_visitor.store_better d s rpid wk bd st emb := by
  unfold vStoreBetter
  rw [if_neg (fun h => Bool.noConfusion h)]

theorem divBOEfalse (w : Nat) :
    vBetterOrEq false (vjL w) ⟨w + 432000⟩ (dDiv.stop_times.getD 0 default) = false := by
  unfold vBetterOrEq vCurDT vPrevDT
  rw [if_neg (fun h => Bool.noConfusion h), if_neg (fun h => Bool.noConfusion h)]
  refine decide_eq_false ?_
  show ¬ ((DateTime.ofDateHour (⟨w + 432000⟩ : DateTime).date 259200).val ≤ (vjL w).departure.val)
  show ¬ (((w + 432000) / secondsInDay) * secondsInDay + 259200 ≤ w)
  unfold secondsInDay
  omega

theorem divRp0 (w : Nat) (R : List (List type_retour)) (hmod : w % 86400 = 0) :
    scanRp dDiv false false (dDiv.routes.getD 0 default)
        (divPrep w R, ⟨0, 1, ⟨w + 259200⟩, 1, 7⟩, true) 0 =
      (divStoreS w R, ⟨0, 1, ⟨w + 432000⟩, 0, 7⟩, false) := by
  unfold scanRp scanRpStore
  dsimp only
  rw [if_pos (by decide : (0 : Int) ≤ 0)]
  rw [show vCursorNext false 1 = 0 from rfl]
  rw [show (dDiv.route_points.getD 0 default).idx = 0 from rfl]
  rw [if_pos (by decide : (7 : Nat) = lzMax ∨ (7 : Nat) ≠ (dDiv.stop_times.getD 0 default).local_traffic_zone)]
  rw [if_pos (Or.inr rfl)]
  rw [show (divPrep w R).getBest 0 = vjL w from rfl]
  rw [vStoreBetter_false]
  rw [divStoreLemma w R hmod]
  dsimp only
  unfold scanRpCatch
  dsimp only
  rw [show (dDiv.route_points.getD 0 default).idx = 0 from rfl]
  have hret : (divStoreS w R).getRetour ((divStoreS w R).count - 1) 0 = vjL w := by
    show ((R ++ [[vjL w, connL w],
        [⟨RType.vj, ⟨w + 604800⟩, ⟨w + 432000⟩, 0, 1⟩, retour_sentinel_reverse]]).getD
        (R.length + 1 - 1) []).getD 0 retour_sentinel = vjL w
    rw [Nat.add_sub_cancel, getD_append_self]
    rfl
  rw [hret]
  rw [if_neg (fun hc => hc.2.elim (fun h => absurd h (by decide))
    (fun h => Bool.noConfusion ((divBOEfalse w) ▸ h : false = true)))]
  rfl

/-- The state after the whole route scan (queue entry reset). -/
def divScanS (w : Nat) (R : List (List type_retour)) : RState :=
  ⟨R ++ [[vjL w, connL w],
      [⟨RType.vj, ⟨w + 604800⟩, ⟨w + 432000⟩, 0, 1⟩, retour_sentinel_reverse]],
    [⟨RType.vj, ⟨w + 604800⟩, ⟨w + 432000⟩, 0, 1⟩, connL w], [-1], [true, false],
    [true, false], default, [true], R.length + 1⟩

theorem divScanRoute (w : Nat) (R : List (List type_retour)) (sc : ScanState)
    (hmod : w % 86400 = 0) :
    scanRoute dDiv false false (divPrep w R, sc, true) (dDiv.routes.getD 0 default) =
      (divScanS w R, ⟨0, 1, ⟨w + 432000⟩, 0, 7⟩, false) := by
  obtain ⟨t0, m0, w0, c0, z0⟩ := sc
  unfold scanRoute
  dsimp only
  rw [show (divPrep w R).Q.getD (dDiv.routes.getD 0 default).idx (vQReset false) = 1 from rfl]
  rw [if_pos ⟨by decide, by decide, rfl⟩]
  rw [show routePositions false (dDiv.routes.getD 0 default) ((1 : Int)).toNat = [1, 0]
    from rfl]
  unfold scanRouteInit
  dsimp only
  simp only [List.foldl_cons, List.foldl_nil]
  rw [divRp1 w R (vEmbInit false) (vWdInit false) c0 z0 hmod]
  rw [divRp0 w R hmod]
  rfl

/-- The state after the backward route-path connection relaxer. -/
def divConnS (w : Nat) (R : List (List type_retour)) : RState :=
  ⟨R ++ [[vjL w, connL w],
      [⟨RType.vj, ⟨w + 604800⟩, ⟨w + 432000⟩, 0, 1⟩,
        ⟨RType.connection_guarantee, ⟨w + 604740⟩, ⟨w + 604740⟩, invalid_idx, 0⟩]],
    [⟨RType.vj, ⟨w + 604800⟩, ⟨w + 432000⟩, 0, 1⟩,
      ⟨RType.connection_guarantee, ⟨w + 604740⟩, ⟨w + 604740⟩, invalid_idx, 0⟩],
    [1], [true, true], [true, false], default, [true], R.length + 1⟩

theorem divConnLemma (w : Nat) (R : List (List type_retour)) :
    RAPTOR.route_path_connections_backward dDiv (divScanS w R) = divConnS w R := by
  unfold RAPTOR.route_path_connections_backward
  dsimp only
  rw [show bitsetIndices (divScanS w R).marked_rp = [0] from rfl]
  simp only [List.foldl_cons, List.foldl_nil]
  rw [show dDiv.footpath_rp_backward.filter (fun p => p.1 == 0) =
    [(0, ⟨1, 60, ConnectionKind.guarantee⟩)] from rfl]
  simp only [List.foldl_cons, List.foldl_nil]
  have hret : (divScanS w R).getRetour ((divScanS w R).count) 0 =
      ⟨RType.vj, ⟨w + 604800⟩, ⟨w + 432000⟩, 0, 1⟩ := by
    show ((R ++ [[vjL w, connL w],
        [⟨RType.vj, ⟨w + 604800⟩, ⟨w + 432000⟩, 0, 1⟩, retour_sentinel_reverse]]).getD
        (R.length + 1) []).getD 0 retour_sentinel =
      ⟨RType.vj, ⟨w + 604800⟩, ⟨w + 432000⟩, 0, 1⟩
    rw [getD_append_one]
    rfl
  rw [hret]
  rw [show (divScanS w R).getBest 1 = connL w from rfl]
  dsimp only
  rw [show w + 604800 - 60 = w + 604740 from by omega]
  rw [if_pos ⟨rfl, by show w + 172740 < w + 604740; omega⟩]
  rw [if_neg (fun h => ConnectionKind.noConfusion h)]
  have hinner : (divScanS w R).retour.getD (divScanS w R).count [] =
      [⟨RType.vj, ⟨w + 604800⟩, ⟨w + 432000⟩, 0, 1⟩, retour_sentinel_reverse] := by
    show (R ++ [[vjL w, connL w],
        [⟨RType.vj, ⟨w + 604800⟩, ⟨w + 432000⟩, 0, 1⟩, retour_sentinel_reverse]]).getD
      (R.length + 1) [] = _
    rw [getD_append_one]
  unfold RState.setRetour RState.setBest
  dsimp only
  rw [hinner]
  have houter : (divScanS w R).retour.set (divScanS w R).count
      ([⟨RType.vj, ⟨w + 604800⟩, ⟨w + 432000⟩, 0, 1⟩, retour_sentinel_reverse].set 1
        (type_retour.mkConnection ⟨w + 604740⟩ ⟨w + 604740⟩ 0 RType.connection_guarantee)) =
      R ++ [[vjL w, connL w],
        [⟨RType.vj, ⟨w + 604800⟩, ⟨w + 432000⟩, 0, 1⟩,
          ⟨RType.connection_guarantee, ⟨w + 604740⟩, ⟨w + 604740⟩, invalid_idx, 0⟩]] := by
    show (R ++ [[vjL w, connL w],
        [⟨RType.vj, ⟨w + 604800⟩, ⟨w + 432000⟩, 0, 1⟩, retour_sentinel_reverse]]).set
      (R.length + 1) _ = _
    rw [set_append_one]
    rfl
  rw [houter]
  rw [show ([] : List Nat) ++ [1] = [1] from rfl]
  simp only [List.foldl_cons, List.foldl_nil]
  rw [show (dDiv.route_points.getD 1 default).route_idx = 0 from rfl,
    show (dDiv.route_points.getD 1 default).order = 1 from rfl]
  rw [show (divScanS w R).Q.getD 0 0 = -1 from rfl]
  rw [if_pos (by decide : (-1 : Int) < ((1 : Nat) : Int))]
  rfl

theorem divCompFalse (w : Nat) :
    vCompDT false ⟨w + 604800⟩ (vWorst false) = true := by
  unfold vCompDT vWorst
  rw [if_neg (fun h => Bool.noConfusion h), if_neg (fun h => Bool.noConfusion h)]
  refine decide_eq_true ?_
  show DateTime.min.val < w + 604800
  show 0 < w + 604800
  omega

theorem divSel (w : Nat) (R : List (List type_retour)) :
    foot_path_best_rp dDiv (divConnS w R) false 0 = (⟨w + 604800⟩, 0) := by
  unfold foot_path_best_rp
  rw [show (dDiv.stop_points.getD 0 default).route_point_list = [0] from rfl]
  simp only [List.foldl_cons, List.foldl_nil]
  dsimp only
  have hret : (divConnS w R).getRetour ((divConnS w R).count) 0 =
      ⟨RType.vj, ⟨w + 604800⟩, ⟨w + 432000⟩, 0, 1⟩ := by
    show ((R ++ [[vjL w, connL w],
        [⟨RType.vj, ⟨w + 604800⟩, ⟨w + 432000⟩, 0, 1⟩,
          ⟨RType.connection_guarantee, ⟨w + 604740⟩, ⟨w + 604740⟩, invalid_idx, 0⟩]]).getD
        (R.length + 1) []).getD 0 retour_sentinel = _
    rw [getD_append_one]
    rfl
  rw [hret]
  rw [if_pos ⟨Or.inl rfl, divCompFalse w⟩]

theorem divFootLemma (w : Nat) (R : List (List type_retour)) :
    RAPTOR.foot_path dDiv false (divConnS w R) = divConnS w R := by
  unfold RAPTOR.foot_path
  rw [show bitsetIndices (divConnS w R).marked_sp = [0] from rfl]
  simp only [List.foldl_cons, List.foldl_nil]
  unfold foot_path_process_sp
  dsimp only
  rw [divSel w R]
  rw [if_pos (by decide : (0 : Nat) ≠ invalid_idx)]
  rw [show (dDiv.stop_points.getD 0 default).route_point_list = [0] from rfl]
  simp only [List.foldl_cons, List.foldl_nil]
  unfold foot_path_step3_one
  rw [if_neg (fun hc => hc.1 rfl)]
  rw [show dDiv.footpath_index.getD 0 (0, 0) = (0, 0) from rfl]
  rfl

theorem vjL_shift (w : Nat) :
    vjL (w + 432000) = ⟨RType.vj, ⟨w + 604800⟩, ⟨w + 432000⟩, 0, 1⟩ := by
  rw [show w + 604800 = w + 432000 + 172800 from by omega]
  rfl

theorem connL_shift (w : Nat) :
    connL (w + 432000) =
      ⟨RType.connection_guarantee, ⟨w + 604740⟩, ⟨w + 604740⟩, invalid_idx, 0⟩ := by
  rw [show w + 604740 = w + 432000 + 172740 from by omega]
  rfl

theorem divConn_SDiv (w : Nat) (R : List (List type_retour)) :
    divConnS w R = SDiv (w + 432000) (R ++ [[vjL w, connL w]]) := by
  unfold divConnS SDiv
  rw [vjL_shift w, connL_shift w]
  rw [List.append_assoc, List.length_append]
  rfl

theorem vRPC_false (d : Data) (s : RState) :
    vRoutePathConnections false d s = RAPTOR.route_path_connections_backward d s := by
  unfold vRoutePathConnections
  rw [if_neg (fun h => Bool.noConfusion h)]

theorem divStep (w : Nat) (R : List (List type_retour)) (sc : ScanState)
    (hmod : w % 86400 = 0) :
    raptorRound dDiv false false (SDiv w R) sc =
      (SDiv (w + 432000) (R ++ [[vjL w, connL w]]), ⟨0, 1, ⟨w + 432000⟩, 0, 7⟩, false) := by
  unfold raptorRound
  dsimp only
  rw [divP1]
  rw [show (∀ acc, dDiv.routes.foldl (scanRoute dDiv false false) acc =
      scanRoute dDiv false false acc (dDiv.routes.getD 0 default)) from fun acc => rfl]
  rw [divScanRoute w R sc hmod]
  dsimp only
  rw [vRPC_false, divConnLemma, divFootLemma, divConn_SDiv]

/-- No amount of fuel completes the loop from any self-similar state. -/
theorem divAux : ∀ (n : Nat) (w : Nat) (R : List (List type_retour)) (sc : ScanState),
    w % 86400 = 0 → raptorLoopAux dDiv false false n (SDiv w R) sc = none := by
  intro n
  induction n with
  | zero => intro w R sc h1; rfl
  | succ m ih =>
    intro w R sc h1
    show raptorLoopAux dDiv false false (m + 1) (SDiv w R) sc = none
    unfold raptorLoopAux
    dsimp only
    rw [divStep w R sc h1]
    rw [if_neg (fun h => Bool.noConfusion h)]
    exact ih (w + 432000) (R ++ [[vjL w, connL w]]) _ (by omega)

/-- Divergence of the reverse round loop on the concrete `dDiv` query: the
loop exhausts ANY amount of fuel without returning. -/
def reverse_loop_diverges_on_dDiv : Prop :=
  ∀ fuel : Nat, RAPTOR.boucleRAPTORreverse dDiv false fuel s1Div = none

/-- C2 counterexample: the claim promises termination of the round loop for
every input, but `boucleRAPTORreverse` on the `dDiv` query diverges — it
returns `none` for EVERY amount of fuel.  Round 1 is checked by evaluation;
from then on every round maps the self-similar state `SDiv w R` to
`SDiv (w + 432000) (R ++ ...)` with the `end` flag false (`divStep`), so no
round ever stops the loop. -/
theorem C2_round_loop_terminates_counterexample : reverse_loop_diverges_on_dDiv := by
  intro fuel
  show RAPTOR.raptor_loop dDiv false false fuel s1Div = none
  unfold RAPTOR.raptor_loop
  dsimp only
  cases fuel with
  | zero => rfl
  | succ m =>
    unfold raptorLoopAux
    dsimp only
    rw [show raptorRound dDiv false false
        (RAPTOR.foot_path dDiv false { s1Div with count := 0 })
        ⟨-1, vEmbInit false, vWdInit false, 0, lzMax⟩ =
        (SDiv 518400 [[retour_sentinel_reverse, type_retour.mkSeed ⟨172800⟩ ⟨172800⟩]],
          ⟨0, 1, ⟨518400⟩, 0, 7⟩, false) from by decide]
    rw [if_neg (fun h => Bool.noConfusion h)]
    exact divAux m 518400 _ _ (by decide)

end Navitia
